import Mathlib

/-!
Verification of the Polygon backend's wave-validation and run-state core.

This file gives a shallow embedding, in Lean, of the parts of the backend
that the specification talks about:

* `app/core/enemy_data.py` — enemy health scaling and expected counts;
* `app/core/upgrade_data.py` — the upgrade catalog and eligibility predicate;
* `app/services/wave_service.py` — wave completion: token gate, the four
  anti-cheat validators, flag recording and the commit policy, plus the
  upgrade roller;
* `app/models/wave_token.py` — token validity;
* `app/repositories/run_repository.py` and `app/services/run_service.py` —
  the run state machine (conditional saves, death CAS, upgrade purchase).

Python floats are modelled as real numbers (decimal literals read as exact
rationals), Mongo collections as Lean lists of documents, `datetime` values
as integers, and Mongo's conditional `update_one`/`find_one_and_update` as
first-match list updates.  Randomness in the upgrade roller is modelled by
an explicit stream of draws.
-/

namespace Polygon

/-! ## Flags (app/models/flagged_wave.py, FlagReason) -/

/-- Value stored in a flag's `expected`/`actual` fields (they are `Any` in
the source: either a number or a list of upgrade ids). -/
inductive FlagValue where
  | num (x : ℝ)
  | strs (xs : List String)

/-- One anti-cheat flag, mirroring `FlagReason` in flagged_wave.py.
Severities are the literal strings used by the source. -/
structure FlagReason where
  category : String
  severity : String
  description : String
  expected : FlagValue
  actual : FlagValue
  deviation_percent : Option ℝ

/-! ## Enemy data (app/core/enemy_data.py) -/

/-- Base enemy health, `ENEMY_BASE_HEALTH`, with the `.get(enemy_type, 70)`
default for unknown types folded in. -/
def enemy_base_health (enemy_type : String) : ℕ :=
  if enemy_type = "triangle" then 70
  else if enemy_type = "square" then 110
  else if enemy_type = "pentagon" then 250
  else if enemy_type = "hexagon" then 575
  else if enemy_type = "shooter" then 45
  else 70

noncomputable section

/-- Wave multiplier `math.exp(wave / 6)` (`get_wave_multiplier`); the
argument is already the shifted wave. -/
def get_wave_multiplier (wave : ℝ) : ℝ := Real.exp (wave / 6)

/-- Scaled enemy health `int(base_health * get_wave_multiplier(wave - 1))`
(`get_enemy_health`); `int` truncation coincides with `⌊·⌋` on these
non-negative values. -/
def get_enemy_health (enemy_type : String) (wave : ℕ) : ℤ :=
  ⌊(enemy_base_health enemy_type : ℝ) * get_wave_multiplier ((wave : ℝ) - 1)⌋

/-- Expected total enemy count per wave (`get_expected_enemy_count`). -/
def get_expected_enemy_count (wave : ℕ) : ℤ :=
  if wave = 1 ∨ wave = 3 then 30
  else if wave = 2 then 35
  else if wave = 4 ∨ wave = 5 then 40
  else if wave = 6 then 50
  else if wave = 7 then 45
  else ⌊(45 : ℝ) + (wave : ℝ) * 2 + (wave : ℝ) ^ (1.2 : ℝ)⌋

/-- First-occurrence list of enemy types, modelling the insertion order of
the `enemy_counts` dict built in `_validate_damage`. -/
def distinctTypes (deaths : List String) : List String :=
  deaths.foldl (fun acc t => if acc.contains t then acc else acc ++ [t]) []

/-- Minimum damage needed to clear the wave
(`calculate_minimum_damage_required`): per enemy type, scaled health times
count, with hexagons adding a shield worth `int(health * 0.65)` per kill. -/
def calculate_minimum_damage_required (wave : ℕ) (deathTypes : List String) : ℤ :=
  (distinctTypes deathTypes).foldl
    (fun total enemy_type =>
      let enemy_health := get_enemy_health enemy_type wave
      let count : ℤ := (deathTypes.count enemy_type : ℤ)
      if enemy_type = "hexagon" then
        let shield_health : ℤ := ⌊(enemy_health : ℝ) * 0.65⌋
        total + (enemy_health + shield_health) * count
      else total + enemy_health * count)
    0

end

/-! ## Upgrade catalog (app/core/upgrade_data.py) -/

/-- One upgrade record, keeping the fields that `can_apply_upgrade` and the
roller read (`id`, `rarity`, `attackType`, `stackable`, `maxStacks`,
`dependentOn`, `dependencyCount`, `replaces`, `cost`).  Absent dict keys are
`none` / `[]`. -/
structure Upgrade where
  id : String
  rarity : String
  attackType : Option String := none
  stackable : Bool
  maxStacks : Option ℕ := none
  dependentOn : List String := []
  dependencyCount : Option ℕ := none
  replaces : List String := []
  cost : ℕ
  deriving DecidableEq

/-- The `UPGRADES` table, in source (insertion) order. -/
def UPGRADES : List Upgrade := [
  { id := "damage_1", rarity := "common", stackable := true, maxStacks := some 99999, cost := 2 },
  { id := "damage_2", rarity := "uncommon", stackable := true, maxStacks := some 99999, cost := 6 },
  { id := "damage_3", rarity := "rare", stackable := true, maxStacks := some 99999, cost := 10 },
  { id := "damage_4", rarity := "epic", stackable := true, maxStacks := some 99999, cost := 20 },
  { id := "damage_5", rarity := "legendary", stackable := true, maxStacks := some 99999, cost := 40 },
  { id := "bullet_damage_1", rarity := "common", attackType := some "bullet", stackable := true, maxStacks := some 99999, cost := 2 },
  { id := "bullet_damage_2", rarity := "uncommon", attackType := some "bullet", stackable := true, maxStacks := some 99999, cost := 6 },
  { id := "bullet_damage_3", rarity := "rare", attackType := some "bullet", stackable := true, maxStacks := some 99999, cost := 10 },
  { id := "bullet_damage_4", rarity := "epic", attackType := some "bullet", stackable := true, maxStacks := some 99999, cost := 20 },
  { id := "bullet_damage_5", rarity := "legendary", attackType := some "bullet", stackable := true, maxStacks := some 99999, cost := 40 },
  { id := "bullet_speed_1", rarity := "common", attackType := some "bullet", stackable := true, maxStacks := some 5, cost := 2 },
  { id := "bullet_speed_2", rarity := "uncommon", attackType := some "bullet", stackable := true, maxStacks := some 5, cost := 6 },
  { id := "bullet_pierce_1", rarity := "rare", attackType := some "bullet", stackable := true, maxStacks := some 3, cost := 10 },
  { id := "bullet_size_1", rarity := "uncommon", attackType := some "bullet", stackable := true, maxStacks := some 3, cost := 6 },
  { id := "bullet_size_2", rarity := "rare", attackType := some "bullet", stackable := true, maxStacks := some 2, cost := 10 },
  { id := "laser_damage_1", rarity := "uncommon", attackType := some "laser", stackable := true, maxStacks := some 99, cost := 40 },
  { id := "laser_pierce_1", rarity := "rare", attackType := some "laser", stackable := true, maxStacks := some 10, cost := 100 },
  { id := "player_health_1", rarity := "common", stackable := true, maxStacks := some 20, cost := 2 },
  { id := "player_health_2", rarity := "uncommon", stackable := true, maxStacks := some 15, cost := 6 },
  { id := "player_health_3", rarity := "rare", stackable := true, maxStacks := some 10, cost := 10 },
  { id := "player_health_4", rarity := "epic", stackable := true, maxStacks := some 8, cost := 20 },
  { id := "player_health_5", rarity := "legendary", stackable := true, maxStacks := some 5, cost := 40 },
  { id := "knockback_1", rarity := "common", stackable := true, maxStacks := some 5, cost := 2 },
  { id := "knockback_2", rarity := "uncommon", stackable := true, maxStacks := some 5, cost := 6 },
  { id := "knockback_3", rarity := "rare", stackable := true, maxStacks := some 5, cost := 10 },
  { id := "player_speed_1", rarity := "uncommon", stackable := true, maxStacks := some 10, cost := 6 },
  { id := "polygon_upgrade", rarity := "legendary", stackable := true, maxStacks := some 9, cost := 35 },
  { id := "explosion_radius", rarity := "uncommon", attackType := some "bullet", stackable := true, maxStacks := some 5, cost := 6, dependentOn := ["explosive_bullets"], dependencyCount := some 1 },
  { id := "vampirism_1", rarity := "rare", stackable := false, maxStacks := some 1, cost := 10 },
  { id := "vampirism_2", rarity := "epic", stackable := false, maxStacks := some 1, cost := 20 },
  { id := "vampirism_3", rarity := "legendary", stackable := false, maxStacks := some 1, cost := 40 },
  { id := "regeneration", rarity := "epic", stackable := true, maxStacks := some 3, cost := 20 },
  { id := "armor", rarity := "rare", stackable := true, maxStacks := some 5, cost := 10 },
  { id := "armor_2", rarity := "epic", stackable := true, maxStacks := some 5, cost := 20 },
  { id := "thorns", rarity := "epic", stackable := true, maxStacks := some 3, cost := 20 },
  { id := "explosion_on_kill", rarity := "epic", stackable := false, cost := 20 },
  { id := "multishot_1", rarity := "legendary", attackType := some "bullet", stackable := true, maxStacks := some 2, cost := 40 },
  { id := "ricochet", rarity := "epic", stackable := true, maxStacks := some 2, cost := 20, dependentOn := ["bullet_pierce_1"], dependencyCount := some 1 },
  { id := "homing_bullets", rarity := "epic", attackType := some "bullet", stackable := false, replaces := ["explosive_bullets"], cost := 20 },
  { id := "explosive_bullets", rarity := "epic", attackType := some "bullet", stackable := false, replaces := ["homing_bullets"], cost := 20 },
  { id := "player_glow", rarity := "uncommon", stackable := false, cost := 0 },
  { id := "projectile_trail", rarity := "common", stackable := false, cost := 0 },
  { id := "dash_ability", rarity := "rare", stackable := false, cost := 10 },
  { id := "shield_ability", rarity := "rare", stackable := false, cost := 10 }]

/-- Catalog lookup by id (`get_upgrade`; dict keyed by id, so first match). -/
def get_upgrade (upgrade_id : String) : Option Upgrade :=
  UPGRADES.find? (fun u => u.id == upgrade_id)

/-- Eligibility predicate `can_apply_upgrade(upgrade_id, current_upgrades,
attack_type)`: attack-type filter, non-stackable-not-owned, stack limit,
dependencies, and `replaces` conflicts, with the source's early-return
structure. -/
def can_apply_upgrade (upgrade_id : String) (current_upgrades : List String)
    (attack_type : String) : Bool :=
  match get_upgrade upgrade_id with
  | none => false
  | some upgrade =>
    if upgrade.attackType.isSome && upgrade.attackType != some attack_type then false
    else if !upgrade.stackable && current_upgrades.contains upgrade_id then false
    else if upgrade.stackable && (match upgrade.maxStacks with
        | some m => decide (m ≤ current_upgrades.count upgrade_id)
        | none => false) then false
    else if !upgrade.dependentOn.isEmpty &&
        decide ((upgrade.dependentOn.filter (fun d => current_upgrades.contains d)).length
          < upgrade.dependencyCount.getD 1) then false
    else if upgrade.replaces.any (fun r => current_upgrades.contains r) then false
    else true

/-! ## Upgrade roller (WaveService._roll_upgrades, _pick_rarity)

`random.random()` is modelled as a supplied rational in `[0,1)` and
`random.choice` as a supplied index taken modulo the pool size; the stream
`draws` gives one `(rand, choiceIndex)` pair per attempt. -/

/-- Rarity selection by cumulative weights over `RARITY_WEIGHTS` in source
order (common 0.50, uncommon 0.30, rare 0.15, epic 0.04, legendary 0.01),
falling back to `"common"`. -/
def pick_rarity (rand : ℚ) : String :=
  if rand < 1/2 then "common"
  else if rand < 4/5 then "uncommon"
  else if rand < 19/20 then "rare"
  else if rand < 99/100 then "epic"
  else if rand < 1 then "legendary"
  else "common"

/-- The `while len(selected) < count and attempts < max_attempts` loop of
`_roll_upgrades`; `fuel` is the remaining attempt budget (initially 100) and
`attempts` the current attempt number (used to index the draw stream). -/
def roll_loop (available : List Upgrade) (count : ℕ) (draws : ℕ → ℚ × ℕ) :
    ℕ → ℕ → List Upgrade → List Upgrade
  | 0, _, selected => selected
  | fuel + 1, attempts, selected =>
    if selected.length < count then
      let rarity := pick_rarity (draws attempts).1
      let rarity_upgrades := available.filter (fun u => u.rarity == rarity)
      match rarity_upgrades with
      | [] => roll_loop available count draws fuel (attempts + 1) selected
      | u :: us =>
        let upgrade := (u :: us).getD ((draws attempts).2 % (u :: us).length) u
        let selected' :=
          if !selected.contains upgrade || upgrade.stackable then selected ++ [upgrade]
          else selected
        roll_loop available count draws fuel (attempts + 1) selected'
    else selected

/-- `_roll_upgrades(current_upgrades, attack_type, count)`: filter the
catalog by eligibility, return `[]` on an empty pool, otherwise run the
bounded sampling loop and truncate to `count`. -/
def roll_upgrades (current_upgrades : List String) (attack_type : String)
    (draws : ℕ → ℚ × ℕ) (count : ℕ) : List Upgrade :=
  let available := UPGRADES.filter
    (fun u => can_apply_upgrade u.id current_upgrades attack_type)
  if available.isEmpty then []
  else (roll_loop available count draws 100 0 []).take count

/-! ## Wave validation token (app/models/wave_token.py) -/

/-- Baseline stats snapshot stored in a token's `expected_player_stats`
(the service always stores health/max_health/speed/damage). -/
structure StatsSnapshot where
  health : ℚ
  max_health : ℚ
  speed : ℚ
  damage : ℚ
  deriving DecidableEq

/-- A stored `WaveValidationToken` document; `oid` is the Mongo `_id`,
timestamps are integers. -/
structure TokenDoc where
  oid : ℕ
  user_id : ℕ
  wave_number : ℕ
  token : String
  expires_at : ℤ
  expected_player_stats : StatsSnapshot
  allowed_upgrades : List String
  offered_upgrades : List String
  seed : ℤ
  used : Bool
  used_at : Option ℤ
  deriving DecidableEq

/-- `WaveValidationToken.is_valid`: "only checks if used, not expiry
time". -/
def is_valid (t : TokenDoc) : Bool := !t.used

/-! ## Wave submission payload (waves.py WaveCompleteRequest, as the dict
handed to `WaveService.complete_wave`) -/

/-- Player position inside a frame sample (`player.get("x"/"y", 0)`). -/
structure PlayerPos where
  x : ℚ
  y : ℚ
  deriving DecidableEq

/-- One frame sample `{frame, timestamp (ms), player}`. -/
structure FrameSample where
  frame : ℤ
  timestamp : ℤ
  player : PlayerPos
  deriving DecidableEq

/-- One reported enemy death `{type, x, y, frame}`. -/
structure EnemyDeath where
  type : String
  x : ℚ
  y : ℚ
  frame : ℤ
  deriving DecidableEq

/-- The wave completion payload fields read by `complete_wave` and its
commit helpers. -/
structure WaveData where
  wave : ℕ
  kills : ℤ
  total_damage : ℤ
  current_health : ℚ
  damage_taken : ℤ
  frame_samples : List FrameSample
  enemy_deaths : List EnemyDeath
  upgrades_used : List String
  deriving DecidableEq

/-! ## Anti-cheat validators (WaveService._validate_*) -/

noncomputable section

/-- Upgrade-authorization check (inlined in `complete_wave`, step 1): one
`high` flag per used upgrade outside `allowed ∪ offered`.  Python's
`set(...)` membership is modelled by membership in the concatenation; the
set listed in `expected` is modelled as the first-occurrence dedup. -/
def validate_upgrades (upgrades_used allowed offered : List String) : List FlagReason :=
  let valid_upgrades := (allowed ++ offered).eraseDups
  upgrades_used.filterMap (fun upgrade_id =>
    if (allowed ++ offered).contains upgrade_id then none
    else some { category := "upgrades", severity := "high",
                description := "Unauthorized upgrade used: " ++ upgrade_id,
                expected := FlagValue.strs valid_upgrades,
                actual := FlagValue.strs upgrades_used,
                deviation_percent := none })

/-- `WaveService._validate_damage`: flags reported damage below 80% of the
minimum required for the submitted deaths (`kills` is accepted but unread,
as in the source). -/
def validate_damage (reported_damage : ℤ) (kills : ℤ)
    (enemy_deaths : List EnemyDeath) (wave : ℕ) : List FlagReason :=
  let min_damage := calculate_minimum_damage_required wave (enemy_deaths.map (fun d => d.type))
  if (reported_damage : ℝ) < (min_damage : ℝ) * 0.8 then
    let deviation : ℝ := (((min_damage : ℝ) - (reported_damage : ℝ)) / (min_damage : ℝ)) * 100
    [{ category := "damage",
       severity := if deviation > 50 then "high" else "medium",
       description := "Damage dealt is suspiciously low for kills reported",
       expected := FlagValue.num (min_damage : ℝ),
       actual := FlagValue.num (reported_damage : ℝ),
       deviation_percent := some deviation }]
  else []

/-- One step of `_validate_movement`: compare a consecutive frame pair;
steps with non-positive elapsed time are skipped (`continue`). -/
def step_flag (player_speed : ℚ) (prev_frame curr_frame : FrameSample) :
    Option FlagReason :=
  let dx : ℚ := curr_frame.player.x - prev_frame.player.x
  let dy : ℚ := curr_frame.player.y - prev_frame.player.y
  let distance : ℝ := Real.sqrt ((dx : ℝ) ^ 2 + (dy : ℝ) ^ 2)
  let time_delta : ℚ := ((curr_frame.timestamp - prev_frame.timestamp : ℤ) : ℚ) / 1000
  if time_delta ≤ 0 then none
  else
    let max_distance : ℝ := (player_speed : ℝ) * (time_delta : ℝ) * 1.10
    if distance > max_distance then
      let deviation : ℝ := ((distance - max_distance) / max_distance) * 100
      some { category := "movement",
             severity := if deviation > 100 then "critical" else "high",
             description := "Player moved faster than possible (frame "
               ++ toString curr_frame.frame ++ ")",
             expected := FlagValue.num max_distance,
             actual := FlagValue.num distance,
             deviation_percent := some deviation }
    else none

/-- The `for i in range(1, len(frame_samples))` loop of
`_validate_movement`, carrying the previous frame. -/
def movement_pairs (player_speed : ℚ) : FrameSample → List FrameSample → List FlagReason
  | _, [] => []
  | prev, curr :: rest =>
    (step_flag player_speed prev curr).toList ++ movement_pairs player_speed curr rest

/-- `WaveService._validate_movement`: fewer than two samples yields no
flags; otherwise every consecutive pair is checked. -/
def validate_movement (frame_samples : List FrameSample) (player_speed : ℚ) :
    List FlagReason :=
  if frame_samples.length < 2 then []
  else
    match frame_samples with
    | [] => []
    | f :: rest => movement_pairs player_speed f rest

/-- `WaveService._validate_kills`: flags kill counts above 120% of the
expected spawn count. -/
def validate_kills (kills : ℤ) (wave : ℕ) : List FlagReason :=
  let expected_count := get_expected_enemy_count wave
  let max_reasonable : ℝ := (expected_count : ℝ) * 1.2
  if (kills : ℝ) > max_reasonable then
    let deviation : ℝ := (((kills : ℝ) - (expected_count : ℝ)) / (expected_count : ℝ)) * 100
    [{ category := "kills", severity := "high",
       description := "Kill count exceeds expected enemy spawns",
       expected := FlagValue.num (expected_count : ℝ),
       actual := FlagValue.num (kills : ℝ),
       deviation_percent := some deviation }]
  else []

/-- The four validations of `complete_wave`, accumulated in source order
(the movement check reads the token's stored `speed` snapshot). -/
def validate_submission (token : TokenDoc) (wave_data : WaveData) : List FlagReason :=
  validate_upgrades wave_data.upgrades_used token.allowed_upgrades token.offered_upgrades
    ++ validate_damage wave_data.total_damage wave_data.kills wave_data.enemy_deaths
        token.wave_number
    ++ validate_movement wave_data.frame_samples token.expected_player_stats.speed
    ++ validate_kills wave_data.kills token.wave_number

end

/-! ## Persistent stores touched by wave completion -/

/-- The `PlayerStats` fields that the wave and run services read or write
(`find_by_user_id` + `update_by_id`); unread fields are omitted.
`highest_wave_ever` is accessed through the permissive Mongo base model. -/
structure PlayerStats where
  user_id : ℕ
  total_kills : ℤ
  total_damage_dealt : ℤ
  highest_wave_ever : ℤ
  games_won : ℤ
  total_playtime_seconds : ℤ
  deriving DecidableEq

/-- `OfferedUpgrade` from game_save.py. -/
structure OfferedUpgrade where
  id : String
  purchased : Bool
  deriving DecidableEq

/-- The per-attack stats blob `attack_stats["bullet"]` written at save
creation. -/
structure AttackStats where
  damage : ℚ
  speed : ℚ
  cooldown : ℚ
  size : ℚ
  pierce : ℚ
  deriving DecidableEq

/-- The `GameSave` fields read or written by `_save_game_state`. -/
structure GameSave where
  user_id : ℕ
  current_wave : ℕ
  current_points : ℤ
  seed : ℤ
  current_health : ℚ
  current_max_health : ℚ
  current_speed : ℚ
  current_polygon_sides : ℕ
  current_kills : ℤ
  current_damage_dealt : ℤ
  current_upgrades : List String
  offered_upgrades : List OfferedUpgrade
  attack_stats : AttackStats
  unlocked_attacks : List String
  deriving DecidableEq

/-- A stored `FlaggedWave` audit record (`_flag_wave` always writes the
initial unreviewed record). -/
structure FlaggedWave where
  user_id : ℕ
  username : String
  wave_number : ℕ
  total_flags : ℕ
  highest_severity : String
  auto_ban : Bool
  reasons : List FlagReason
  submitted_data : WaveData
  expected_data : TokenDoc
  reviewed : Bool

/-- The database state seen by `WaveService`: the four collections it
touches. -/
structure World where
  wave_tokens : List TokenDoc
  player_stats : List PlayerStats
  game_saves : List GameSave
  flagged_waves : List FlaggedWave

/-- Conditional first-match update, the model of Mongo's
`update_one(filter, {"$set": ...})` / update-by-located-id: flips exactly
the first matching document and reports whether one matched. -/
def update_first {α : Type} (p : α → Bool) (f : α → α) : List α → Bool × List α
  | [] => (false, [])
  | x :: xs =>
    if p x then (true, f x :: xs)
    else
      let r := update_first p f xs
      (r.1, x :: r.2)

/-- Severity rank used by `_flag_wave`'s
`["low","medium","high","critical"].index(s)` key. -/
def severity_index (s : String) : ℕ :=
  if s = "low" then 0 else if s = "medium" then 1
  else if s = "high" then 2 else if s = "critical" then 3 else 4

/-- `max(..., key=severity_index)` over the flags' severities: Python's
`max` keeps the first maximum. -/
def flags_highest_severity : List FlagReason → String
  | [] => "low"
  | f :: fs =>
    fs.foldl
      (fun acc g => if severity_index acc < severity_index g.severity then g.severity else acc)
      f.severity

/-- The audit record built by `WaveService._flag_wave`. -/
def mk_flagged_wave (user_id : ℕ) (username : String) (wave : ℕ)
    (flags : List FlagReason) (submitted : WaveData) (expected : TokenDoc) :
    FlaggedWave :=
  { user_id := user_id, username := username, wave_number := wave,
    total_flags := flags.length,
    highest_severity := flags_highest_severity flags,
    auto_ban := flags.any (fun f => f.severity == "critical"),
    reasons := flags, submitted_data := submitted, expected_data := expected,
    reviewed := false }

/-- The token-consumption write of `complete_wave`: an `update_one` keyed
only by the located document's `_id`, setting `used`/`used_at` (note: the
filter does not re-check `used`). -/
def mark_token_used (tokens : List TokenDoc) (oid : ℕ) (now : ℤ) : List TokenDoc :=
  (update_first (fun d => d.oid == oid)
    (fun d => { d with used := true, used_at := some now }) tokens).2

/-- `WaveService._update_player_stats_after_wave`: read the stats document
for the user, and if present bump the lifetime counters. -/
def update_player_stats_after_wave (stats : List PlayerStats) (user_id : ℕ)
    (kills damage : ℤ) (wave : ℕ) : List PlayerStats :=
  match stats.find? (fun s => s.user_id == user_id) with
  | none => stats
  | some _ =>
    (update_first (fun s => s.user_id == user_id)
      (fun s => { s with
        total_kills := s.total_kills + kills,
        total_damage_dealt := s.total_damage_dealt + damage,
        highest_wave_ever := max s.highest_wave_ever (wave : ℤ),
        games_won := s.games_won + 1 }) stats).2

/-- `WaveService._save_game_state`: update the user's save (accumulating
kills/damage, advancing to the next wave, clearing offers) or create a
fresh one (the completion payload carries no `seed` key, so the create
branch stores `.get("seed", 0) = 0`). -/
def save_game_state (saves : List GameSave) (user_id : ℕ) (wave_data : WaveData)
    (wave_number : ℕ) : List GameSave :=
  match saves.find? (fun s => s.user_id == user_id) with
  | some existing_save =>
    (update_first (fun s => s.user_id == user_id)
      (fun s => { s with
        current_wave := wave_number + 1,
        current_kills := existing_save.current_kills + wave_data.kills,
        current_damage_dealt := existing_save.current_damage_dealt + wave_data.total_damage,
        current_upgrades := wave_data.upgrades_used,
        offered_upgrades := [],
        current_health := wave_data.current_health,
        current_max_health := existing_save.current_max_health,
        current_speed := existing_save.current_speed,
        current_polygon_sides := existing_save.current_polygon_sides,
        seed := existing_save.seed }) saves).2
  | none =>
    let new_save : GameSave :=
      { user_id := user_id, current_wave := wave_number, current_points := 0,
        current_health := 100, current_max_health := 100, current_speed := 200,
        current_polygon_sides := 3, current_kills := wave_data.kills,
        current_damage_dealt := wave_data.total_damage,
        current_upgrades := wave_data.upgrades_used,
        offered_upgrades := [],
        attack_stats := { damage := 10, speed := 400, cooldown := 200, size := 1, pierce := 0 },
        unlocked_attacks := ["bullet"],
        seed := 0 }
    saves ++ [new_save]

/-! ## Wave completion (WaveService.complete_wave) -/

/-- The token phase of `complete_wave` (lines 170–184): `find_one` by token
string, then the `is_valid` (used-flag) check, then the user binding check,
each with its error message.  This is a pure read of a store snapshot. -/
def token_gate (tokens : List TokenDoc) (token_string : String) (user_id : ℕ) :
    Except String TokenDoc :=
  match tokens.find? (fun d => d.token == token_string) with
  | none => Except.error "Invalid or missing wave token"
  | some token =>
    if !is_valid token then Except.error "Token expired or already used"
    else if token.user_id != user_id then Except.error "Token user mismatch"
    else Except.ok token

noncomputable section

/-- `WaveService.complete_wave`: token gate, the four validations, the
unconditional mark-used write, flag recording, the critical-gated commits,
and the returned `(is_valid, errors)` pair. -/
def complete_wave (w : World) (now : ℤ) (user_id : ℕ) (username : String)
    (token_string : String) (wave_data : WaveData) :
    (Bool × List String) × World :=
  match token_gate w.wave_tokens token_string user_id with
  | Except.error e => ((false, [e]), w)
  | Except.ok token =>
    let flags := validate_submission token wave_data
    let w1 : World := { w with wave_tokens := mark_token_used w.wave_tokens token.oid now }
    let w2 : World :=
      if flags.isEmpty then w1
      else { w1 with flagged_waves := w1.flagged_waves
              ++ [mk_flagged_wave user_id username token.wave_number flags wave_data token] }
    let high_severity_flags := flags.filter
      (fun f => f.severity == "high" || f.severity == "critical")
    let critical_flags := flags.filter (fun f => f.severity == "critical")
    let w3 : World :=
      if critical_flags.isEmpty then
        { w2 with
          player_stats := update_player_stats_after_wave w2.player_stats user_id
            wave_data.kills wave_data.total_damage token.wave_number,
          game_saves := save_game_state w2.game_saves user_id wave_data token.wave_number }
      else w2
    if high_severity_flags.isEmpty then ((true, []), w3)
    else ((false, high_severity_flags.map (fun f => f.description)), w3)

end

/-! ## Run state machine (app/models/run.py, app/repositories/run_repository.py,
app/services/run_service.py) -/

/-- `RunStatus`: a run is `active` or `dead`. -/
inductive RunStatus where
  | active
  | dead
  deriving DecidableEq, BEq

/-- `RunProgress` (wave, points, upgrades, kills). -/
structure RunProgress where
  wave : ℤ
  points : ℤ
  upgrades : List String
  kills : ℤ
  deriving DecidableEq

/-- `RunStats` (totalDamage, totalTimeSurvived). -/
structure RunStats where
  totalDamage : ℤ
  totalTimeSurvived : ℤ
  deriving DecidableEq

/-- A stored `Run` document. -/
structure Run where
  user_id : ℕ
  run_id : String
  status : RunStatus
  seed : ℤ
  progress : RunProgress
  stats : RunStats
  last_saved_at : Option ℤ
  deriving DecidableEq

/-- `RunRepository.find_active_by_user_id`: first run matching
`(user_id, status=active)`. -/
def find_active_by_user_id (runs : List Run) (user_id : ℕ) : Option Run :=
  runs.find? (fun r => r.user_id == user_id && r.status == RunStatus.active)

/-- The conditional filter `{run_id, user_id, status: active}` shared by
`atomic_save`, `mark_dead` and `update_progress`. -/
def run_filter (run_id : String) (user_id : ℕ) (r : Run) : Bool :=
  r.run_id == run_id && r.user_id == user_id && r.status == RunStatus.active

/-- `RunRepository.atomic_save`: one conditional `update_one` that replaces
progress/stats wholesale and stamps `last_saved_at`; returns whether a
matching active run was updated. -/
def atomic_save (runs : List Run) (run_id : String) (user_id : ℕ)
    (progress : RunProgress) (stats : RunStats) (now : ℤ) : Bool × List Run :=
  update_first (run_filter run_id user_id)
    (fun r => { r with progress := progress, stats := stats, last_saved_at := some now })
    runs

/-- The `$set` document of `mark_dead`: status flips to `dead` and the
final snapshot is written in the same update. -/
def mark_dead_update (final_progress : RunProgress) (final_stats : RunStats)
    (now : ℤ) (r : Run) : Run :=
  { r with status := RunStatus.dead, progress := final_progress,
           stats := final_stats, last_saved_at := some now }

/-- `RunRepository.mark_dead`: one conditional `update_one` that flips
`status` to `dead` and writes the final snapshot in the same operation. -/
def mark_dead (runs : List Run) (run_id : String) (user_id : ℕ)
    (final_progress : RunProgress) (final_stats : RunStats) (now : ℤ) : Bool × List Run :=
  update_first (run_filter run_id user_id) (mark_dead_update final_progress final_stats now)
    runs

/-- `RunRepository.update_progress(run_id, user_id, upgrades=…, points=…)`
as called by `add_upgrade`: conditional `find_one_and_update` setting
`progress.upgrades` and `progress.points`, returning the updated document. -/
def update_progress (runs : List Run) (run_id : String) (user_id : ℕ)
    (upgrades : List String) (points : ℤ) (now : ℤ) : Option Run × List Run :=
  let f : Run → Run := fun r =>
    { r with progress := { r.progress with upgrades := upgrades, points := points },
             last_saved_at := some now }
  match runs.find? (run_filter run_id user_id) with
  | none => (none, (update_first (run_filter run_id user_id) f runs).2)
  | some r => (some (f r), (update_first (run_filter run_id user_id) f runs).2)

/-- The database state seen by `RunService`. -/
structure RunWorld where
  runs : List Run
  player_stats : List PlayerStats

/-- `RunService._update_player_stats_on_death`: bump lifetime stats from
the final snapshot (no-op when the user has no stats document). -/
def update_player_stats_on_death (stats : List PlayerStats) (user_id : ℕ)
    (progress : RunProgress) (run_stats : RunStats) : List PlayerStats :=
  match stats.find? (fun s => s.user_id == user_id) with
  | none => stats
  | some _ =>
    (update_first (fun s => s.user_id == user_id)
      (fun s => { s with
        total_kills := s.total_kills + progress.kills,
        total_damage_dealt := s.total_damage_dealt + run_stats.totalDamage,
        highest_wave_ever := max s.highest_wave_ever progress.wave,
        total_playtime_seconds := s.total_playtime_seconds + run_stats.totalTimeSurvived })
      stats).2

/-- `RunService.save_progress`: delegate to `atomic_save` and return its
success boolean. -/
def save_progress (s : RunWorld) (now : ℤ) (user_id : ℕ) (run_id : String)
    (progress : RunProgress) (stats : RunStats) : Bool × RunWorld :=
  let r := atomic_save s.runs run_id user_id progress stats now
  (r.1, { s with runs := r.2 })

/-- `RunService.end_run`: `mark_dead`, then on success roll the final
snapshot into the lifetime player stats. -/
def end_run (s : RunWorld) (now : ℤ) (user_id : ℕ) (run_id : String)
    (final_progress : RunProgress) (final_stats : RunStats) : Bool × RunWorld :=
  let r := mark_dead s.runs run_id user_id final_progress final_stats now
  if r.1 then
    (true, { runs := r.2,
             player_stats := update_player_stats_on_death s.player_stats user_id
               final_progress final_stats })
  else (false, { s with runs := r.2 })

/-- `RunService.add_upgrade`: read the active run, fail (`none`) on a
missing run, a wrong id or insufficient points; otherwise deduct the cost
and append the upgrade through the conditional-active `update_progress`. -/
def add_upgrade (s : RunWorld) (now : ℤ) (user_id : ℕ) (run_id : String)
    (upgrade_id : String) (cost : ℤ) : Option Run × RunWorld :=
  match find_active_by_user_id s.runs user_id with
  | none => (none, s)
  | some run =>
    if run.run_id != run_id then (none, s)
    else if run.progress.points < cost then (none, s)
    else
      let new_upgrades := run.progress.upgrades ++ [upgrade_id]
      let new_points := run.progress.points - cost
      let r := update_progress s.runs run_id user_id new_upgrades new_points now
      (r.1, { s with runs := r.2 })

/-! ## Specification-side definitions

These definitions follow the wording of the specification / claims (not the
source); the theorems compare them with the source-derived definitions
above. -/

noncomputable section

/-- Claim C4's minimum-damage formula: "the sum over enemy types of count
times floor(baseHealth(type) * e^((wave-1)/6)), with the shielded hexagon
type adding an extra floor(scaledHealth * 0.65) per kill". -/
def spec_min_damage (wave : ℕ) (deathTypes : List String) : ℤ :=
  ((distinctTypes deathTypes).map (fun t =>
    let scaled : ℤ := ⌊(enemy_base_health t : ℝ) * Real.exp (((wave : ℝ) - 1) / 6)⌋
    (deathTypes.count t : ℤ) * scaled
      + if t = "hexagon" then (deathTypes.count t : ℤ) * ⌊(scaled : ℝ) * 0.65⌋ else 0)).sum

/-- Claim C4's damage check: "a flag is raised exactly when reported damage
is below 80% of this minimum, with deviation percent
(min - reported)/min * 100 and severity high when the deviation exceeds 50,
else medium". -/
def spec_damage_check (reported : ℤ) (deaths : List EnemyDeath) (wave : ℕ) :
    List FlagReason :=
  let m := spec_min_damage wave (deaths.map (fun d => d.type))
  if (reported : ℝ) < (m : ℝ) * (80 / 100) then
    let deviation : ℝ := (((m : ℝ) - (reported : ℝ)) / (m : ℝ)) * 100
    [{ category := "damage",
       severity := if deviation > 50 then "high" else "medium",
       description := "Damage dealt is suspiciously low for kills reported",
       expected := FlagValue.num (m : ℝ),
       actual := FlagValue.num (reported : ℝ),
       deviation_percent := some deviation }]
  else []

/-- Euclidean distance of one movement step (as computed by
`_validate_movement`). -/
def step_distance (prev_frame curr_frame : FrameSample) : ℝ :=
  Real.sqrt (((curr_frame.player.x - prev_frame.player.x : ℚ) : ℝ) ^ 2
    + ((curr_frame.player.y - prev_frame.player.y : ℚ) : ℝ) ^ 2)

/-- Elapsed seconds of one movement step (millisecond timestamps over
1000). -/
def step_elapsed_seconds (prev_frame curr_frame : FrameSample) : ℚ :=
  ((curr_frame.timestamp - prev_frame.timestamp : ℤ) : ℚ) / 1000

/-- One step of the amended movement claim: a flag exactly when the elapsed
time is positive and the distance exceeds `speed * elapsed * 1.10`, with
severity critical exactly when the overshoot exceeds 100%. -/
def spec_step (player_speed : ℚ) (p q : FrameSample) : Option FlagReason :=
  let distance := step_distance p q
  let elapsed := step_elapsed_seconds p q
  let bound : ℝ := (player_speed : ℝ) * (elapsed : ℝ) * 1.10
  if 0 < elapsed ∧ distance > bound then
    some { category := "movement",
           severity := if ((distance - bound) / bound) * 100 > 100 then "critical" else "high",
           description := "Player moved faster than possible (frame "
             ++ toString q.frame ++ ")",
           expected := FlagValue.num bound,
           actual := FlagValue.num distance,
           deviation_percent := some (((distance - bound) / bound) * 100) }
  else none

/-- The amended movement claim as a function: compare consecutive pairs,
flagging per `spec_step` (fewer than two samples yields no pairs). -/
def spec_movement (frame_samples : List FrameSample) (player_speed : ℚ) :
    List FlagReason :=
  (frame_samples.zip frame_samples.tail).filterMap
    (fun pq => spec_step player_speed pq.1 pq.2)

end

/-- Claim C8's eligibility wording: attack-type matches or is absent, not
already owned unless stackable, stack count under maxStacks, all dependency
requirements met by the owned set, and no upgrade from its replaces set
owned. -/
def spec_eligible (upgrade_id : String) (owned : List String) (attack_type : String) :
    Bool :=
  match get_upgrade upgrade_id with
  | none => false
  | some u =>
    (u.attackType == none || u.attackType == some attack_type)
    && (u.stackable || !owned.contains upgrade_id)
    && (!u.stackable || (match u.maxStacks with
        | some m => decide (owned.count upgrade_id < m)
        | none => true))
    && (u.dependentOn.isEmpty
        || decide (u.dependencyCount.getD 1
            ≤ (u.dependentOn.filter (fun d => owned.contains d)).length))
    && u.replaces.all (fun r => !owned.contains r)

/-! ## Interleaving model for racing token consumptions (claim C9)

`complete_wave` consumes a token as a read phase (`token_gate`, i.e.
`find_one` plus in-process checks) followed by a separate write
(`mark_token_used`, an `update_one` keyed only by the located `_id`, with no
`used: false` condition in its filter).  `race_read_then_write` is the
interleaving R1 R2 W1 W2 of two such consumptions of the same token string:
both sessions run their read phase against the same store snapshot before
either write lands.  It returns each session's gate outcome and the final
store. -/
def race_read_then_write (tokens : List TokenDoc) (token_string : String)
    (u1 u2 : ℕ) (t1 t2 : ℤ) : (Bool × Bool) × List TokenDoc :=
  let d1 := token_gate tokens token_string u1
  let d2 := token_gate tokens token_string u2
  let s1 := match d1 with
    | Except.ok d => mark_token_used tokens d.oid t1
    | Except.error _ => tokens
  let s2 := match d2 with
    | Except.ok d => mark_token_used s1 d.oid t2
    | Except.error _ => s1
  ((d1.toBool, d2.toBool), s2)

/-! ## Concrete sample data used by witnesses and counterexamples -/

/-- Baseline snapshot that `start_wave` stores (health 100, speed 200,
damage 10). -/
def sample_stats : StatsSnapshot := { health := 100, max_health := 100, speed := 200, damage := 10 }

/-- An unused wave-5 token bound to user 7. -/
def sample_token : TokenDoc :=
  { oid := 1, user_id := 7, wave_number := 5, token := "tok", expires_at := 1000,
    expected_player_stats := sample_stats, allowed_upgrades := [], offered_upgrades := [],
    seed := 42, used := false, used_at := none }

/-- A submission that raises no flags (no kills, no damage, no frames). -/
def benign_data : WaveData :=
  { wave := 5, kills := 0, total_damage := 0, current_health := 100, damage_taken := 0,
    frame_samples := [], enemy_deaths := [], upgrades_used := [] }

/-- Two frames 1000 ms apart with a 1000-unit jump: at speed 200 this
overshoots the 220-unit bound by more than 100%, a critical flag. -/
def crit_frames : List FrameSample :=
  [{ frame := 0, timestamp := 0, player := { x := 0, y := 0 } },
   { frame := 1, timestamp := 1000, player := { x := 1000, y := 0 } }]

/-- A submission whose only anomaly is the critical movement jump. -/
def crit_data : WaveData :=
  { benign_data with frame_samples := crit_frames }

/-- A submission whose only anomaly is one unauthorized upgrade id (a
single high flag). -/
def high_data : WaveData :=
  { benign_data with upgrades_used := ["hack"] }

/-- Two frames with identical timestamps but a 100-unit jump: elapsed time
is zero, so the code skips the step entirely. -/
def zero_dt_frames : List FrameSample :=
  [{ frame := 0, timestamp := 0, player := { x := 0, y := 0 } },
   { frame := 1, timestamp := 0, player := { x := 100, y := 0 } }]

/-- Frames 1000 ms apart with a 215-unit displacement (inside the 10%
tolerance at speed 200). -/
def pass_frames : List FrameSample :=
  [{ frame := 0, timestamp := 0, player := { x := 0, y := 0 } },
   { frame := 1, timestamp := 1000, player := { x := 215, y := 0 } }]

/-- Frames 1000 ms apart with a 250-unit displacement (a high, not
critical, overshoot at speed 200). -/
def high_frames : List FrameSample :=
  [{ frame := 0, timestamp := 0, player := { x := 0, y := 0 } },
   { frame := 1, timestamp := 1000, player := { x := 250, y := 0 } }]

/-- Ten reported triangle kills (for the wave-5 damage example). -/
def triangle_deaths : List EnemyDeath :=
  List.replicate 10 { type := "triangle", x := 0, y := 0, frame := 0 }

/-- A world holding just the sample token and a zeroed stats document for
user 7. -/
def sample_world : World :=
  { wave_tokens := [sample_token],
    player_stats := [{ user_id := 7, total_kills := 0, total_damage_dealt := 0,
                       highest_wave_ever := 0, games_won := 0, total_playtime_seconds := 0 }],
    game_saves := [], flagged_waves := [] }

/-- An active sample run for user 7 with 10 points. -/
def sample_run : Run :=
  { user_id := 7, run_id := "run-1", status := RunStatus.active, seed := 42,
    progress := { wave := 3, points := 10, upgrades := ["bullet_damage_1"], kills := 25 },
    stats := { totalDamage := 500, totalTimeSurvived := 120 },
    last_saved_at := none }

/-- A run world holding the sample run and a stats document for user 7. -/
def sample_run_world : RunWorld :=
  { runs := [sample_run],
    player_stats := [{ user_id := 7, total_kills := 0, total_damage_dealt := 0,
                       highest_wave_ever := 0, games_won := 0, total_playtime_seconds := 0 }] }

/-- A final progress snapshot for ending the sample run. -/
def sample_final_progress : RunProgress :=
  { wave := 5, points := 0, upgrades := ["bullet_damage_1"], kills := 40 }

/-- A final stats snapshot for ending the sample run. -/
def sample_final_stats : RunStats := { totalDamage := 900, totalTimeSurvived := 200 }

/-! ## Infrastructure lemmas about the store model -/

lemma update_first_fst {α : Type} (p : α → Bool) (f : α → α) :
    ∀ l : List α, (update_first p f l).1 = l.any p := by
  intro l
  induction l with
  | nil => rfl
  | cons x xs ih =>
    by_cases hx : p x = true
    · simp [update_first, hx]
    · simp only [Bool.not_eq_true] at hx
      simp [update_first, hx, ih]

lemma update_first_snd_of_none {α : Type} (p : α → Bool) (f : α → α) :
    ∀ l : List α, l.any p = false → (update_first p f l).2 = l := by
  intro l
  induction l with
  | nil => intro _; rfl
  | cons x xs ih =>
    intro h
    simp only [List.any_cons, Bool.or_eq_false_iff] at h
    simp [update_first, h.1, ih h.2]

lemma update_first_append {α : Type} (p : α → Bool) (f : α → α)
    (pre : List α) (r : α) (post : List α)
    (hpre : ∀ x ∈ pre, p x = false) (hr : p r = true) :
    update_first p f (pre ++ r :: post) = (true, pre ++ f r :: post) := by
  induction pre with
  | nil => simp [update_first, hr]
  | cons x xs ih =>
    have hx := hpre x (List.mem_cons_self x xs)
    have ih' := ih (fun y hy => hpre y (List.mem_cons_of_mem x hy))
    simp [update_first, hx, ih']

lemma update_first_true_split {α : Type} (p : α → Bool) (f : α → α) :
    ∀ l : List α, (update_first p f l).1 = true →
      ∃ pre r post, l = pre ++ r :: post ∧ (∀ x ∈ pre, p x = false) ∧ p r = true ∧
        (update_first p f l).2 = pre ++ f r :: post := by
  intro l
  induction l with
  | nil => intro h; simp [update_first] at h
  | cons x xs ih =>
    intro h
    by_cases hx : p x = true
    · exact ⟨[], x, xs, by simp, by simp, hx, by simp [update_first, hx]⟩
    · simp only [Bool.not_eq_true] at hx
      simp only [update_first, hx, Bool.false_eq_true, if_false] at h
      obtain ⟨pre, r, post, hsplit, hpre, hr, hsnd⟩ := ih h
      refine ⟨x :: pre, r, post, by simp [hsplit], ?_, hr, ?_⟩
      · intro y hy
        rcases List.mem_cons.mp hy with hy | hy
        · exact hy ▸ hx
        · exact hpre y hy
      · simp [update_first, hx, hsnd]

lemma find?_append_cons {α : Type} (p : α → Bool) (pre : List α) (r : α) (post : List α)
    (hpre : ∀ x ∈ pre, p x = false) (hr : p r = true) :
    (pre ++ r :: post).find? p = some r := by
  induction pre with
  | nil => simp [List.find?_cons, hr]
  | cons x xs ih =>
    have hx := hpre x (List.mem_cons_self x xs)
    simp only [List.cons_append, List.find?_cons, hx]
    exact ih (fun y hy => hpre y (List.mem_cons_of_mem x hy))

lemma exists_split_of_find? {α : Type} (p : α → Bool) :
    ∀ (l : List α) (r : α), l.find? p = some r →
      ∃ pre post, l = pre ++ r :: post ∧ (∀ x ∈ pre, p x = false) ∧ p r = true := by
  intro l
  induction l with
  | nil => intro r h; simp at h
  | cons x xs ih =>
    intro r h
    by_cases hx : p x = true
    · rw [@List.find?_cons_of_pos _ p x xs hx] at h
      exact ⟨[], xs, by simp [(Option.some_injective _ h).symm], by simp, by
        rw [← Option.some_injective _ h]; exact hx⟩
    · simp only [Bool.not_eq_true] at hx
      rw [@List.find?_cons_of_neg _ p x xs (by simp [hx])] at h
      obtain ⟨pre, post, hsplit, hpre, hr⟩ := ih r h
      refine ⟨x :: pre, post, by simp [hsplit], ?_, hr⟩
      intro y hy
      rcases List.mem_cons.mp hy with hy | hy
      · exact hy ▸ hx
      · exact hpre y hy

/-! ## Token lemmas -/

lemma token_gate_ok {tokens : List TokenDoc} {token_string : String} {user_id : ℕ}
    {d : TokenDoc}
    (hfind : tokens.find? (fun x => x.token == token_string) = some d)
    (hused : d.used = false) (huser : d.user_id = user_id) :
    token_gate tokens token_string user_id = Except.ok d := by
  simp [token_gate, hfind, is_valid, hused, huser]

lemma find?_mark_token_used (now : ℤ) :
    ∀ (tokens : List TokenDoc) (token_string : String) (d : TokenDoc),
      tokens.find? (fun x => x.token == token_string) = some d →
      (tokens.map (fun x => x.oid)).Nodup →
      (mark_token_used tokens d.oid now).find? (fun x => x.token == token_string)
        = some { d with used := true, used_at := some now } := by
  intro tokens
  induction tokens with
  | nil => intro tok d h _; simp at h
  | cons x xs ih =>
    intro tok d hfind hnodup
    simp only [List.map_cons, List.nodup_cons] at hnodup
    by_cases hx : (x.token == tok) = true
    · rw [@List.find?_cons_of_pos _ (fun y => y.token == tok) x xs hx] at hfind
      have hdx : d = x := (Option.some_injective _ hfind).symm
      subst hdx
      have hoid : (d.oid == d.oid) = true := by simp
      simp only [mark_token_used, update_first, hoid, if_true]
      exact @List.find?_cons_of_pos _ (fun y => y.token == tok)
        { d with used := true, used_at := some now } xs hx
    · simp only [Bool.not_eq_true] at hx
      rw [@List.find?_cons_of_neg _ (fun y => y.token == tok) x xs (by simp [hx])] at hfind
      have hdmem : d ∈ xs := List.mem_of_find?_eq_some hfind
      have hoid : (x.oid == d.oid) = false := by
        simp only [beq_eq_false_iff_ne, ne_eq]
        intro hcontra
        exact hnodup.1 (hcontra ▸ List.mem_map_of_mem (fun t => t.oid) hdmem)
      have ihx := ih tok d hfind hnodup.2
      simp only [mark_token_used, update_first, hoid, Bool.false_eq_true, if_false]
      rw [@List.find?_cons_of_neg _ (fun y => y.token == tok) x _ (by simp [hx])]
      exact ihx

lemma complete_wave_ok {w : World} {token_string : String} {user_id : ℕ}
    {token : TokenDoc} (now : ℤ) (username : String) (wave_data : WaveData)
    (hgate : token_gate w.wave_tokens token_string user_id = Except.ok token) :
    complete_wave w now user_id username token_string wave_data =
      (let flags := validate_submission token wave_data
       let high_severity_flags := flags.filter
         (fun f => f.severity == "high" || f.severity == "critical")
       let critical_flags := flags.filter (fun f => f.severity == "critical")
       ((if high_severity_flags.isEmpty then (true, ([] : List String))
         else (false, high_severity_flags.map (fun f => f.description))),
        { wave_tokens := mark_token_used w.wave_tokens token.oid now,
          player_stats :=
            if critical_flags.isEmpty then
              update_player_stats_after_wave w.player_stats user_id wave_data.kills
                wave_data.total_damage token.wave_number
            else w.player_stats,
          game_saves :=
            if critical_flags.isEmpty then
              save_game_state w.game_saves user_id wave_data token.wave_number
            else w.game_saves,
          flagged_waves :=
            if flags.isEmpty then w.flagged_waves
            else w.flagged_waves ++ [mk_flagged_wave user_id username token.wave_number
              flags wave_data token] })) := by
  simp only [complete_wave, hgate]
  split_ifs <;> rfl

lemma complete_wave_gate_error {w : World} {token_string : String} {user_id : ℕ}
    {e : String} (now : ℤ) (username : String) (wave_data : WaveData)
    (hgate : token_gate w.wave_tokens token_string user_id = Except.error e) :
    complete_wave w now user_id username token_string wave_data = ((false, [e]), w) := by
  simp only [complete_wave, hgate]

lemma complete_wave_tokens {w : World} {token_string : String} {user_id : ℕ}
    {token : TokenDoc} (now : ℤ) (username : String) (wave_data : WaveData)
    (hgate : token_gate w.wave_tokens token_string user_id = Except.ok token) :
    (complete_wave w now user_id username token_string wave_data).2.wave_tokens
      = mark_token_used w.wave_tokens token.oid now := by
  simp only [complete_wave, hgate]
  split_ifs <;> rfl

/-! ## Claim C1: token single use and consumption error taxonomy -/

/-- C1: token single-use.  Consumption inside `complete_wave` fails with
"Invalid or missing wave token" when no record matches the token string,
with "Token expired or already used" when the matching record is already
used, and with "Token user mismatch" when the bound user differs from the
caller (each failure committing no state).  Once a completion attempt
successfully consumes a token (found, unused, bound to the caller), any
subsequent completion attempt with the same token string fails with
"Token expired or already used" and leaves the store untouched. -/
theorem token_single_use (w : World) (now now2 : ℤ) (user_id user_id2 : ℕ)
    (username username2 : String) (token_string : String)
    (wave_data wave_data2 : WaveData) :
    (w.wave_tokens.find? (fun d => d.token == token_string) = none →
      complete_wave w now user_id username token_string wave_data
        = ((false, ["Invalid or missing wave token"]), w)) ∧
    (∀ d : TokenDoc, w.wave_tokens.find? (fun x => x.token == token_string) = some d →
      d.used = true →
      complete_wave w now user_id username token_string wave_data
        = ((false, ["Token expired or already used"]), w)) ∧
    (∀ d : TokenDoc, w.wave_tokens.find? (fun x => x.token == token_string) = some d →
      d.used = false → d.user_id ≠ user_id →
      complete_wave w now user_id username token_string wave_data
        = ((false, ["Token user mismatch"]), w)) ∧
    (∀ d : TokenDoc, w.wave_tokens.find? (fun x => x.token == token_string) = some d →
      d.used = false → d.user_id = user_id →
      (w.wave_tokens.map (fun x => x.oid)).Nodup →
      complete_wave ((complete_wave w now user_id username token_string wave_data).2)
          now2 user_id2 username2 token_string wave_data2
        = ((false, ["Token expired or already used"]),
           (complete_wave w now user_id username token_string wave_data).2)) := by
  refine ⟨?_, ?_, ?_, ?_⟩
  · intro hfind
    exact complete_wave_gate_error now username wave_data (by simp [token_gate, hfind])
  · intro d hfind hused
    exact complete_wave_gate_error now username wave_data
      (by simp [token_gate, hfind, is_valid, hused])
  · intro d hfind hused huser
    exact complete_wave_gate_error now username wave_data
      (by simp [token_gate, hfind, is_valid, hused, huser])
  · intro d hfind hused huser hnodup
    have hgate := token_gate_ok hfind hused huser
    have htok := complete_wave_tokens now username wave_data hgate
    have hfind2 := find?_mark_token_used now w.wave_tokens token_string d hfind hnodup
    refine complete_wave_gate_error now2 username2 wave_data2 ?_
    rw [htok]
    simp [token_gate, hfind2, is_valid]

/-- Witness for C1: in the sample world, after user 7 consumes the sample
token, a second completion attempt with the same token string is rejected
as already used and the store is returned unchanged. -/
theorem token_single_use_witness :
    complete_wave ((complete_wave sample_world 5 7 "alice" "tok" benign_data).2)
        6 7 "alice" "tok" benign_data
      = ((false, ["Token expired or already used"]),
         (complete_wave sample_world 5 7 "alice" "tok" benign_data).2) :=
  (token_single_use sample_world 5 6 7 7 "alice" "alice" "tok"
    benign_data benign_data).2.2.2 sample_token rfl rfl rfl (by decide)

/-! ## Claim C7: expiry is tracked but not enforced -/

/-- C7: for every unused token, completion-time validity ignores expiry:
`is_valid` depends only on the `used` flag (it is invariant under changing
`expires_at`), and the `complete_wave` token gate accepts an unused,
caller-bound token even when the current time is strictly past its
`expires_at`. -/
theorem token_expiry_not_enforced :
    (∀ t : TokenDoc, is_valid t = !t.used) ∧
    (∀ (t : TokenDoc) (e : ℤ), is_valid { t with expires_at := e } = is_valid t) ∧
    (∀ (now : ℤ) (tokens : List TokenDoc) (token_string : String) (user_id : ℕ)
        (d : TokenDoc),
      tokens.find? (fun x => x.token == token_string) = some d →
      d.used = false → d.user_id = user_id → d.expires_at < now →
      token_gate tokens token_string user_id = Except.ok d) := by
  refine ⟨fun t => rfl, fun t e => rfl, ?_⟩
  intro now tokens token_string user_id d hfind hused huser _
  exact token_gate_ok hfind hused huser

/-- Witness for C7: at time 2000 the sample token (expiry 1000) is expired
yet still accepted by the token gate. -/
theorem token_expiry_not_enforced_witness :
    sample_token.expires_at < 2000 ∧
    token_gate [sample_token] "tok" 7 = Except.ok sample_token :=
  ⟨by decide,
   token_expiry_not_enforced.2.2 2000 [sample_token] "tok" 7 sample_token rfl rfl rfl
     (by decide)⟩

/-! ## Claim C9: token consumption is not an atomic conditional update -/

/-- C9 counterexample: the claim says the unused-check and the mark-used
write form one atomic conditional update so that, of two completions racing
on the same token, exactly one succeeds.  In the code the consumption is a
`find_one` read followed by an unconditional `update_one` keyed by `_id`;
under the interleaving in which both sessions read before either writes
(`race_read_then_write`), both sessions pass the token gate — not exactly
one. -/
theorem token_race_counterexample :
    (race_read_then_write [sample_token] "tok" 7 7 5 6).1 = (true, true) ∧
    (race_read_then_write [sample_token] "tok" 7 7 5 6).2
      = [{ sample_token with used := true, used_at := some 6 }] := by
  constructor <;> rfl

/-- C9 amended: token consumption in `complete_wave` is a read-then-write
pair (a `find_one` plus in-process checks, then an `update_one` keyed only
by the located `_id`), not a single atomic conditional update.
Sequentially this still yields single use (the second reader sees
`used = true`), but in the interleaving where both racing completions read
before either writes, both pass the gate. -/
theorem token_race_read_then_write (tokens : List TokenDoc) (token_string : String)
    (user_id : ℕ) (t1 t2 : ℤ) (d : TokenDoc)
    (hfind : tokens.find? (fun x => x.token == token_string) = some d)
    (hused : d.used = false) (huser : d.user_id = user_id)
    (hnodup : (tokens.map (fun x => x.oid)).Nodup) :
    (race_read_then_write tokens token_string user_id user_id t1 t2).1 = (true, true) ∧
    token_gate (mark_token_used tokens d.oid t1) token_string user_id
      = Except.error "Token expired or already used" := by
  have hgate := token_gate_ok hfind hused huser
  constructor
  · simp [race_read_then_write, hgate, Except.toBool]
  · have hfind2 := find?_mark_token_used t1 tokens token_string d hfind hnodup
    simp [token_gate, hfind2, is_valid]

/-- Witness for C9's amended statement, at the sample store. -/
theorem token_race_read_then_write_witness :
    (race_read_then_write [sample_token] "tok" 7 7 1 2).1 = (true, true) ∧
    token_gate (mark_token_used [sample_token] sample_token.oid 1) "tok" 7
      = Except.error "Token expired or already used" :=
  token_race_read_then_write [sample_token] "tok" 7 1 2 sample_token rfl rfl rfl
    (by decide)

/-! ## Claim C2: death immutability via compare-and-swap -/

lemma run_filter_marked_dead (run_id : String) (user_id : ℕ) (r : Run)
    (fp : RunProgress) (fs : RunStats) (now : ℤ) :
    run_filter run_id user_id (mark_dead_update fp fs now r) = false := by
  simp [run_filter, mark_dead_update,
    show (RunStatus.dead == RunStatus.active) = false from rfl]

/-- C2: death immutability.  `end_run` succeeds exactly when a run matching
`(runId, userId, status=active)` exists; on failure the whole state is
untouched; on success it rewrites exactly the first matching run to status
dead with the final snapshot in the one conditional update; and afterwards
(given `run_id` uniqueness, the collection's unique index) both a second
`end_run` and any `save_progress` on the same run return `false` and leave
the state unchanged. -/
theorem run_death_cas (s : RunWorld) (now : ℤ) (user_id : ℕ) (run_id : String)
    (fp : RunProgress) (fs : RunStats)
    (huniq : (s.runs.filter (fun r => r.run_id == run_id)).length ≤ 1) :
    ((end_run s now user_id run_id fp fs).1 = true ↔
      ∃ r ∈ s.runs, run_filter run_id user_id r = true) ∧
    ((end_run s now user_id run_id fp fs).1 = false →
      (end_run s now user_id run_id fp fs).2 = s) ∧
    ((end_run s now user_id run_id fp fs).1 = true →
      ∃ pre r post, s.runs = pre ++ r :: post ∧
        (∀ x ∈ pre, run_filter run_id user_id x = false) ∧
        run_filter run_id user_id r = true ∧
        (end_run s now user_id run_id fp fs).2.runs
          = pre ++ mark_dead_update fp fs now r :: post) ∧
    ((end_run s now user_id run_id fp fs).1 = true →
      ∀ (now2 : ℤ) (fp2 : RunProgress) (fs2 : RunStats),
        end_run (end_run s now user_id run_id fp fs).2 now2 user_id run_id fp2 fs2
          = (false, (end_run s now user_id run_id fp fs).2)) ∧
    ((end_run s now user_id run_id fp fs).1 = true →
      ∀ (now3 : ℤ) (p3 : RunProgress) (st3 : RunStats),
        save_progress (end_run s now user_id run_id fp fs).2 now3 user_id run_id p3 st3
          = (false, (end_run s now user_id run_id fp fs).2)) := by
  by_cases hany : s.runs.any (run_filter run_id user_id) = true
  · -- a matching active run exists: the CAS succeeds
    have hsplit := update_first_true_split (run_filter run_id user_id)
      (mark_dead_update fp fs now) s.runs
      (by rw [update_first_fst]; exact hany)
    obtain ⟨pre, r, post, hdecomp, hpre, hr, hsnd⟩ := hsplit
    have hfst : (update_first (run_filter run_id user_id)
        (mark_dead_update fp fs now) s.runs).1 = true := by
      rw [update_first_fst]; exact hany
    have hres : end_run s now user_id run_id fp fs
        = (true, { runs := pre ++ mark_dead_update fp fs now r :: post,
                   player_stats := update_player_stats_on_death s.player_stats user_id fp fs }) := by
      simp only [end_run, mark_dead, hfst, if_true, hsnd]
    -- run_id uniqueness: nothing in `post` carries this run_id
    have hrid : (r.run_id == run_id) = true := by
      have := hr
      simp only [run_filter, Bool.and_eq_true] at this
      exact this.1.1
    have hpost : ∀ x ∈ post, run_filter run_id user_id x = false := by
      intro x hx
      rw [hdecomp] at huniq
      rw [List.filter_append,
        @List.filter_cons_of_pos _ (fun y => y.run_id == run_id) r post hrid] at huniq
      simp only [List.length_append, List.length_cons] at huniq
      have hlen : (post.filter (fun r => r.run_id == run_id)).length = 0 := by omega
      have hnil := List.length_eq_zero.mp hlen
      have hxr : (x.run_id == run_id) = false := by
        by_contra hc
        simp only [Bool.not_eq_false] at hc
        have : x ∈ post.filter (fun r => r.run_id == run_id) := List.mem_filter.mpr ⟨hx, hc⟩
        rw [hnil] at this
        simp at this
      simp [run_filter, hxr]
    have hnone2 : ∀ x ∈ pre ++ mark_dead_update fp fs now r :: post,
        run_filter run_id user_id x = false := by
      intro x hx
      rcases List.mem_append.mp hx with hx | hx
      · exact hpre x hx
      · rcases List.mem_cons.mp hx with hx | hx
        · rw [hx]; exact run_filter_marked_dead run_id user_id r fp fs now
        · exact hpost x hx
    have hany2 : (pre ++ mark_dead_update fp fs now r :: post).any
          (run_filter run_id user_id) = false := by
      rw [List.any_eq_false]
      intro x hx
      simp [hnone2 x hx]
    refine ⟨?_, ?_, ?_, ?_, ?_⟩
    · rw [hres]
      exact iff_of_true rfl ⟨r, by rw [hdecomp]; simp, hr⟩
    · rw [hres]; intro hfalse; exact Bool.noConfusion hfalse
    · intro _
      exact ⟨pre, r, post, hdecomp, hpre, hr, by rw [hres]⟩
    · intro _ now2 fp2 fs2
      rw [hres]
      have hfst2 : (update_first (run_filter run_id user_id)
          (mark_dead_update fp2 fs2 now2)
          (pre ++ mark_dead_update fp fs now r :: post)).1 = false := by
        rw [update_first_fst, hany2]
      have hsnd2 := update_first_snd_of_none (run_filter run_id user_id)
        (mark_dead_update fp2 fs2 now2) _ hany2
      simp only [end_run, mark_dead, hfst2, Bool.false_eq_true, if_false, hsnd2]
    · intro _ now3 p3 st3
      rw [hres]
      have hsnd3 := update_first_snd_of_none (run_filter run_id user_id)
        (fun r => { r with progress := p3, stats := st3, last_saved_at := some now3 })
        _ hany2
      have hfst3 : (update_first (run_filter run_id user_id)
          (fun r => { r with progress := p3, stats := st3, last_saved_at := some now3 })
          (pre ++ mark_dead_update fp fs now r :: post)).1 = false := by
        rw [update_first_fst, hany2]
      simp only [save_progress, atomic_save, hfst3, hsnd3]
  · -- no matching active run: the CAS fails and nothing changes
    have hany' : s.runs.any (run_filter run_id user_id) = false := by
      simpa using hany
    have hfst : (update_first (run_filter run_id user_id)
        (mark_dead_update fp fs now) s.runs).1 = false := by
      rw [update_first_fst, hany']
    have hsnd := update_first_snd_of_none (run_filter run_id user_id)
      (mark_dead_update fp fs now) s.runs hany'
    have hres : end_run s now user_id run_id fp fs = (false, s) := by
      simp only [end_run, mark_dead, hfst, Bool.false_eq_true, if_false, hsnd]
    refine ⟨?_, ?_, ?_, ?_, ?_⟩
    · rw [hres]
      refine iff_of_false (fun h => Bool.noConfusion h) ?_
      rintro ⟨x, hx, hpx⟩
      exact absurd hpx (List.any_eq_false.mp hany' x hx)
    · intro _; rw [hres]
    · rw [hres]; intro h; exact absurd h (fun h => Bool.noConfusion h)
    · rw [hres]; intro h; exact absurd h (fun h => Bool.noConfusion h)
    · rw [hres]; intro h; exact absurd h (fun h => Bool.noConfusion h)

/-- Witness for C2: in the sample run world, ending run "run-1" succeeds,
then a second `end_run` and a `save_progress` on the dead run both return
`false` with the state unchanged. -/
theorem run_death_cas_witness :
    (end_run sample_run_world 50 7 "run-1" sample_final_progress sample_final_stats).1
      = true ∧
    end_run (end_run sample_run_world 50 7 "run-1" sample_final_progress
        sample_final_stats).2 51 7 "run-1" sample_final_progress sample_final_stats
      = (false, (end_run sample_run_world 50 7 "run-1" sample_final_progress
          sample_final_stats).2) ∧
    save_progress (end_run sample_run_world 50 7 "run-1" sample_final_progress
        sample_final_stats).2 52 7 "run-1" sample_final_progress sample_final_stats
      = (false, (end_run sample_run_world 50 7 "run-1" sample_final_progress
          sample_final_stats).2) := by
  have h := run_death_cas sample_run_world 50 7 "run-1" sample_final_progress
    sample_final_stats (by decide)
  have hfst : (end_run sample_run_world 50 7 "run-1" sample_final_progress
      sample_final_stats).1 = true :=
    h.1.mpr ⟨sample_run, by decide, by decide⟩
  exact ⟨hfst, h.2.2.2.1 hfst 51 sample_final_progress sample_final_stats,
    h.2.2.2.2 hfst 52 sample_final_progress sample_final_stats⟩

/-! ## Claim C6: addUpgrade failure atomicity -/

lemma find_active_split (runs : List Run) (user_id : ℕ) (run : Run) (run_id : String)
    (hfind : find_active_by_user_id runs user_id = some run) (hid : run.run_id = run_id) :
    ∃ pre post, runs = pre ++ run :: post ∧
      (∀ x ∈ pre, run_filter run_id user_id x = false) ∧
      run_filter run_id user_id run = true := by
  have hfind' : runs.find?
      (fun r => r.user_id == user_id && r.status == RunStatus.active) = some run := hfind
  obtain ⟨pre, post, hdecomp, hpre, hr⟩ :=
    exists_split_of_find? (fun r => r.user_id == user_id && r.status == RunStatus.active)
      runs run hfind'
  refine ⟨pre, post, hdecomp, ?_, ?_⟩
  · intro x hx
    have hx' := hpre x hx
    simp only [Bool.and_eq_false_iff] at hx'
    rcases hx' with hx' | hx' <;> simp [run_filter, hx']
  · simp only [Bool.and_eq_true] at hr
    simp [run_filter, hid, hr.1, hr.2]

/-- C6: `add_upgrade` failure atomicity.  With insufficient points it
returns `none` and leaves the whole state (points and upgrade list
included) untouched; it returns `none` when the user has no active run with
the given id; and on success it deducts exactly `cost` from the points and
appends exactly `upgrade_id` at the end of the upgrades list of the one
matching run in a single conditional update, leaving every other document
and field unchanged. -/
theorem add_upgrade_atomicity (s : RunWorld) (now : ℤ) (user_id : ℕ)
    (run_id upgrade_id : String) (cost : ℤ) :
    (∀ run : Run, find_active_by_user_id s.runs user_id = some run →
      run.run_id = run_id → run.progress.points < cost →
      add_upgrade s now user_id run_id upgrade_id cost = (none, s)) ∧
    ((¬ ∃ r ∈ s.runs, run_filter run_id user_id r = true) →
      add_upgrade s now user_id run_id upgrade_id cost = (none, s)) ∧
    (∀ run : Run, find_active_by_user_id s.runs user_id = some run →
      run.run_id = run_id → cost ≤ run.progress.points →
      ∃ pre post, s.runs = pre ++ run :: post ∧
        (∀ x ∈ pre, run_filter run_id user_id x = false) ∧
        (add_upgrade s now user_id run_id upgrade_id cost).1
          = some { run with
                   progress := { run.progress with
                                 upgrades := run.progress.upgrades ++ [upgrade_id],
                                 points := run.progress.points - cost },
                   last_saved_at := some now } ∧
        (add_upgrade s now user_id run_id upgrade_id cost).2.runs
          = pre ++ { run with
                     progress := { run.progress with
                                   upgrades := run.progress.upgrades ++ [upgrade_id],
                                   points := run.progress.points - cost },
                     last_saved_at := some now } :: post ∧
        (add_upgrade s now user_id run_id upgrade_id cost).2.player_stats
          = s.player_stats) := by
  refine ⟨?_, ?_, ?_⟩
  · intro run hfind hid hlt
    have hbne : (run.run_id != run_id) = false := by simp [hid]
    simp [add_upgrade, hfind, hbne, hlt]
  · intro hno
    rcases hfa : find_active_by_user_id s.runs user_id with _ | run
    · simp [add_upgrade, hfa]
    · by_cases hid : (run.run_id != run_id) = true
      · simp [add_upgrade, hfa, hid]
      · simp only [bne_eq_false_iff_eq, Bool.not_eq_true] at hid
        exfalso
        have hmem : run ∈ s.runs := List.mem_of_find?_eq_some hfa
        have hpred := List.find?_some hfa
        simp only [Bool.and_eq_true] at hpred
        exact hno ⟨run, hmem, by simp [run_filter, hid, hpred.1, hpred.2]⟩
  · intro run hfind hid hge
    obtain ⟨pre, post, hdecomp, hpre, hr⟩ := find_active_split s.runs user_id run run_id
      hfind hid
    have hbne : (run.run_id != run_id) = false := by simp [hid]
    have hnotlt : ¬ run.progress.points < cost := not_lt.mpr hge
    have hfind2 : s.runs.find? (run_filter run_id user_id) = some run := by
      rw [hdecomp]
      exact find?_append_cons (run_filter run_id user_id) pre run post hpre hr
    have hupd : update_first (run_filter run_id user_id)
        (fun r => { r with
                    progress := { r.progress with
                                  upgrades := run.progress.upgrades ++ [upgrade_id],
                                  points := run.progress.points - cost },
                    last_saved_at := some now }) s.runs
        = (true, pre ++ { run with
                          progress := { run.progress with
                                        upgrades := run.progress.upgrades ++ [upgrade_id],
                                        points := run.progress.points - cost },
                          last_saved_at := some now } :: post) := by
      rw [hdecomp]
      exact update_first_append _ _ pre run post hpre hr
    refine ⟨pre, post, hdecomp, hpre, ?_, ?_, ?_⟩
    · simp [add_upgrade, hfind, hbne, hnotlt, update_progress, hfind2]
    · simp [add_upgrade, hfind, hbne, hnotlt, update_progress, hfind2, hupd]
    · simp [add_upgrade, hfind, hbne, hnotlt, update_progress]

/-- Witness for C6: in the sample run world (points 10), buying "armor" at
cost 999 fails and leaves the state untouched, buying under a wrong run id
fails, and buying "armor" at cost 4 appends it and leaves 6 points. -/
theorem add_upgrade_atomicity_witness :
    add_upgrade sample_run_world 60 7 "run-1" "armor" 999 = (none, sample_run_world) ∧
    add_upgrade sample_run_world 60 7 "other-run" "armor" 4 = (none, sample_run_world) ∧
    (add_upgrade sample_run_world 60 7 "run-1" "armor" 4).1
      = some { sample_run with
               progress := { sample_run.progress with
                             upgrades := sample_run.progress.upgrades ++ ["armor"],
                             points := sample_run.progress.points - 4 },
               last_saved_at := some 60 } ∧
    (add_upgrade sample_run_world 60 7 "run-1" "armor" 4).2.player_stats
      = sample_run_world.player_stats := by
  have h := (add_upgrade_atomicity sample_run_world 60 7 "run-1" "armor" 4).2.2
    sample_run rfl rfl (by decide)
  obtain ⟨pre, post, hdecomp, hpre, hfst, hruns, hstats⟩ := h
  exact ⟨(add_upgrade_atomicity sample_run_world 60 7 "run-1" "armor" 999).1 sample_run
      rfl rfl (by decide),
    (add_upgrade_atomicity sample_run_world 60 7 "other-run" "armor" 4).2.1 (by decide),
    hfst, hstats⟩

/-! ## Claim C4: damage-sufficiency check -/

lemma exp_pow_three : Real.exp (2 / 3) ^ (3 : ℕ) = Real.exp 2 := by
  rw [← Real.exp_nat_mul]
  norm_num

lemma exp_sq : Real.exp 1 ^ (2 : ℕ) = Real.exp 2 := by
  rw [← Real.exp_nat_mul]
  norm_num

lemma exp_two_thirds_lb : (1.9428572 : ℝ) < Real.exp (2 / 3) := by
  have he2 : (2.7182818283 : ℝ) ^ (2 : ℕ) < Real.exp 2 := by
    rw [← exp_sq]
    exact pow_lt_pow_left Real.exp_one_gt_d9 (by norm_num) (by norm_num)
  have h2 : (1.9428572 : ℝ) ^ (3 : ℕ) < Real.exp (2 / 3) ^ (3 : ℕ) := by
    rw [exp_pow_three]
    calc (1.9428572 : ℝ) ^ (3 : ℕ) < (2.7182818283 : ℝ) ^ (2 : ℕ) := by norm_num
      _ < Real.exp 2 := he2
  exact lt_of_pow_lt_pow_left 3 (Real.exp_nonneg _) h2

lemma exp_two_thirds_ub : Real.exp (2 / 3) < 1.95 := by
  have he2 : Real.exp 2 < (2.7182818286 : ℝ) ^ (2 : ℕ) := by
    rw [← exp_sq]
    exact pow_lt_pow_left Real.exp_one_lt_d9 (Real.exp_nonneg _) (by norm_num)
  have h2 : Real.exp (2 / 3) ^ (3 : ℕ) < (1.95 : ℝ) ^ (3 : ℕ) := by
    rw [exp_pow_three]
    calc Real.exp 2 < (2.7182818286 : ℝ) ^ (2 : ℕ) := he2
      _ < (1.95 : ℝ) ^ (3 : ℕ) := by norm_num
  exact lt_of_pow_lt_pow_left 3 (by norm_num) h2

/-- The wave-5 triangle health: `floor(70 * e^(4/6)) = 136`. -/
lemma floor_70_exp_four_sixths : ⌊(70 : ℝ) * Real.exp (4 / 6)⌋ = (136 : ℤ) := by
  have harg : (4 : ℝ) / 6 = 2 / 3 := by norm_num
  rw [harg, Int.floor_eq_iff]
  · constructor
    · have := exp_two_thirds_lb
      push_cast
      nlinarith
    · have := exp_two_thirds_ub
      push_cast
      nlinarith

lemma get_enemy_health_triangle_5 : get_enemy_health "triangle" 5 = 136 := by
  simp only [get_enemy_health, get_wave_multiplier,
    show enemy_base_health "triangle" = 70 from rfl]
  rw [show (((5 : ℕ) : ℝ) - 1) / 6 = 4 / 6 by norm_num,
    show ((70 : ℕ) : ℝ) = (70 : ℝ) by norm_num]
  exact floor_70_exp_four_sixths

lemma min_damage_triangle10 :
    calculate_minimum_damage_required 5 (triangle_deaths.map (fun d => d.type)) = 1360 := by
  have hmap : triangle_deaths.map (fun d => d.type) = List.replicate 10 "triangle" := rfl
  have hdist : distinctTypes (List.replicate 10 "triangle") = ["triangle"] := by decide
  have hcount : (List.replicate 10 "triangle").count "triangle" = 10 := by decide
  rw [hmap]
  simp only [calculate_minimum_damage_required, hdist, List.foldl_cons, List.foldl_nil]
  rw [if_neg (by decide : ¬ ("triangle" = "hexagon")), hcount, get_enemy_health_triangle_5]
  norm_num

lemma foldl_add_eq_sum {α : Type} (f : ℤ → α → ℤ) (g : α → ℤ)
    (hf : ∀ t a, f t a = t + g a) :
    ∀ (l : List α) (i : ℤ), l.foldl f i = i + (l.map g).sum := by
  intro l
  induction l with
  | nil => intro i; simp
  | cons x xs ih =>
    intro i
    simp only [List.foldl_cons, List.map_cons, List.sum_cons, hf, ih, add_assoc]

/-- The code's minimum-damage computation agrees with the claim's formula
(per-type scaled-health times count, hexagons adding a shield term). -/
lemma calc_min_damage_eq_spec (wave : ℕ) (l : List String) :
    calculate_minimum_damage_required wave l = spec_min_damage wave l := by
  unfold calculate_minimum_damage_required spec_min_damage
  rw [foldl_add_eq_sum _
    (fun enemy_type =>
      (l.count enemy_type : ℤ) * ⌊(enemy_base_health enemy_type : ℝ)
          * Real.exp (((wave : ℝ) - 1) / 6)⌋
        + if enemy_type = "hexagon" then
            (l.count enemy_type : ℤ)
              * ⌊((⌊(enemy_base_health enemy_type : ℝ)
                  * Real.exp (((wave : ℝ) - 1) / 6)⌋ : ℤ) : ℝ) * 0.65⌋
          else 0)
    ?_]
  · rw [zero_add]
  · intro t a
    by_cases h : a = "hexagon" <;>
      simp only [get_enemy_health, get_wave_multiplier, h, if_true, if_false,
        reduceIte] <;> ring

/-- C4 counterexample: with wave 5 and ten triangle kills the minimum is
1360, and reporting 680 (exactly 50% of it) raises a `medium` flag, not the
`high` flag the claim asserts — the deviation is exactly 50, which does not
exceed 50. -/
theorem damage_fifty_percent_counterexample :
    calculate_minimum_damage_required 5 (triangle_deaths.map (fun d => d.type)) = 1360 ∧
    (validate_damage 680 10 triangle_deaths 5).map (fun f => f.severity) = ["medium"] := by
  have h680 : (validate_damage 680 10 triangle_deaths 5).map (fun f => f.severity)
      = ["medium"] := by
    simp only [validate_damage, min_damage_triangle10]
    rw [if_pos (by push_cast; norm_num)]
    simp only [List.map_cons, List.map_nil]
    rw [if_neg (by push_cast; norm_num)]
  exact ⟨min_damage_triangle10, h680⟩

/-- C4 amended: the damage check is exactly the claim's rule — minimum
damage is the sum over enemy types of count times
`floor(baseHealth * e^((wave-1)/6))` (hexagons adding
`floor(scaled * 0.65)` per kill), a flag is raised exactly when reported
damage is below 80% of that minimum with deviation
`(min - reported)/min * 100` and severity `high` iff the deviation exceeds
50 (else `medium`); for wave 5 with ten triangle kills the minimum is
`floor(70 * e^(4/6)) * 10 = 1360`, reporting 1360 passes, and reporting 680
(50% of it) raises a `medium` flag (deviation exactly 50). -/
theorem damage_check_amended :
    (∀ (reported kills : ℤ) (deaths : List EnemyDeath) (wave : ℕ),
      validate_damage reported kills deaths wave = spec_damage_check reported deaths wave) ∧
    calculate_minimum_damage_required 5 (triangle_deaths.map (fun d => d.type))
      = ⌊(70 : ℝ) * Real.exp (4 / 6)⌋ * 10 ∧
    validate_damage 1360 10 triangle_deaths 5 = [] ∧
    (validate_damage 680 10 triangle_deaths 5).map (fun f => f.severity) = ["medium"] := by
  refine ⟨?_, ?_, ?_, ?_⟩
  · intro reported kills deaths wave
    unfold validate_damage spec_damage_check
    rw [calc_min_damage_eq_spec, show ((80 : ℝ) / 100) = 0.8 by norm_num]
  · rw [min_damage_triangle10, floor_70_exp_four_sixths]; norm_num
  · simp only [validate_damage, min_damage_triangle10]
    rw [if_neg (by push_cast; norm_num)]
  · simp only [validate_damage, min_damage_triangle10]
    rw [if_pos (by push_cast; norm_num)]
    simp only [List.map_cons, List.map_nil]
    rw [if_neg (by push_cast; norm_num)]

/-! ## Claim C5: movement-plausibility check -/

lemma step_flag_eq_spec (player_speed : ℚ) (p q : FrameSample) :
    step_flag player_speed p q = spec_step player_speed p q := by
  unfold step_flag spec_step step_distance step_elapsed_seconds
  by_cases hdt : ((q.timestamp - p.timestamp : ℤ) : ℚ) / 1000 ≤ 0
  · rw [if_pos hdt, if_neg]
    rintro ⟨hpos, _⟩
    exact absurd hdt (not_le.mpr hpos)
  · rw [if_neg hdt]
    have hpos : 0 < ((q.timestamp - p.timestamp : ℤ) : ℚ) / 1000 := not_le.mp hdt
    by_cases hgt : Real.sqrt (((q.player.x - p.player.x : ℚ) : ℝ) ^ 2
        + ((q.player.y - p.player.y : ℚ) : ℝ) ^ 2)
        > (player_speed : ℝ) * ((((q.timestamp - p.timestamp : ℤ) : ℚ) / 1000 : ℚ) : ℝ) * 1.10
    · rw [if_pos hgt, if_pos ⟨hpos, hgt⟩]
    · rw [if_neg hgt, if_neg]
      rintro ⟨_, h⟩
      exact hgt h

lemma movement_pairs_eq_zip (player_speed : ℚ) :
    ∀ (prev : FrameSample) (rest : List FrameSample),
      movement_pairs player_speed prev rest
        = ((prev :: rest).zip rest).filterMap (fun pq => step_flag player_speed pq.1 pq.2) := by
  intro prev rest
  induction rest generalizing prev with
  | nil => rfl
  | cons c cs ih =>
    simp only [movement_pairs, List.zip_cons_cons, List.filterMap_cons, ih c]
    cases step_flag player_speed prev c <;> simp

/-- The code's movement validator agrees with the amended claim's
specification function. -/
lemma validate_movement_eq_spec (frame_samples : List FrameSample) (player_speed : ℚ) :
    validate_movement frame_samples player_speed
      = spec_movement frame_samples player_speed := by
  unfold validate_movement spec_movement
  match frame_samples with
  | [] => rfl
  | [f] => rfl
  | f :: g :: rest =>
    rw [if_neg (by simp)]
    show movement_pairs player_speed f (g :: rest) = _
    rw [movement_pairs_eq_zip]
    simp only [List.tail_cons]
    congr 1
    funext pq
    exact step_flag_eq_spec player_speed pq.1 pq.2

lemma validate_movement_pair (player_speed : ℚ) (p q : FrameSample) :
    validate_movement [p, q] player_speed = (step_flag player_speed p q).toList := by
  simp [validate_movement, movement_pairs]

lemma step_flag_zero_dt :
    step_flag 200 { frame := 0, timestamp := 0, player := { x := 0, y := 0 } }
      { frame := 1, timestamp := 0, player := { x := 100, y := 0 } } = none := by
  unfold step_flag
  norm_num

lemma step_flag_pass :
    step_flag 200 { frame := 0, timestamp := 0, player := { x := 0, y := 0 } }
      { frame := 1, timestamp := 1000, player := { x := 215, y := 0 } } = none := by
  have hs : Real.sqrt 46225 = 215 := by
    rw [show (46225 : ℝ) = 215 ^ 2 by norm_num]
    exact Real.sqrt_sq (by norm_num)
  unfold step_flag
  norm_num [hs]

lemma step_flag_high :
    ∃ fl, step_flag 200 { frame := 0, timestamp := 0, player := { x := 0, y := 0 } }
      { frame := 1, timestamp := 1000, player := { x := 250, y := 0 } } = some fl
      ∧ fl.severity = "high" := by
  have hs : Real.sqrt 62500 = 250 := by
    rw [show (62500 : ℝ) = 250 ^ 2 by norm_num]
    exact Real.sqrt_sq (by norm_num)
  unfold step_flag
  norm_num [hs]

lemma step_flag_crit :
    ∃ fl, step_flag 200 { frame := 0, timestamp := 0, player := { x := 0, y := 0 } }
      { frame := 1, timestamp := 1000, player := { x := 1000, y := 0 } } = some fl
      ∧ fl.severity = "critical" := by
  have hs : Real.sqrt 1000000 = 1000 := by
    rw [show (1000000 : ℝ) = 1000 ^ 2 by norm_num]
    exact Real.sqrt_sq (by norm_num)
  unfold step_flag
  norm_num [hs]

lemma movement_zero_dt : validate_movement zero_dt_frames 200 = [] := by
  rw [show zero_dt_frames
      = [{ frame := 0, timestamp := 0, player := { x := 0, y := 0 } },
         { frame := 1, timestamp := 0, player := { x := 100, y := 0 } }] from rfl,
    validate_movement_pair, step_flag_zero_dt]
  rfl

lemma movement_pass_eval : validate_movement pass_frames 200 = [] := by
  rw [show pass_frames
      = [{ frame := 0, timestamp := 0, player := { x := 0, y := 0 } },
         { frame := 1, timestamp := 1000, player := { x := 215, y := 0 } }] from rfl,
    validate_movement_pair, step_flag_pass]
  rfl

lemma movement_high_eval :
    (validate_movement high_frames 200).map (fun f => f.severity) = ["high"] := by
  obtain ⟨fl, hfl, hsev⟩ := step_flag_high
  rw [show high_frames
      = [{ frame := 0, timestamp := 0, player := { x := 0, y := 0 } },
         { frame := 1, timestamp := 1000, player := { x := 250, y := 0 } }] from rfl,
    validate_movement_pair, hfl]
  simp [hsev]

lemma movement_crit_eval :
    ∃ fl, validate_movement crit_frames 200 = [fl] ∧ fl.severity = "critical" := by
  obtain ⟨fl, hfl, hsev⟩ := step_flag_crit
  refine ⟨fl, ?_, hsev⟩
  rw [show crit_frames
      = [{ frame := 0, timestamp := 0, player := { x := 0, y := 0 } },
         { frame := 1, timestamp := 1000, player := { x := 1000, y := 0 } }] from rfl,
    validate_movement_pair, hfl]
  rfl

/-- C5 counterexample: the claim says a flag is raised exactly for each
step whose Euclidean distance exceeds `playerSpeed * elapsedSeconds *
1.10`.  For two frames with identical timestamps and a 100-unit jump the
distance (100) exceeds the bound (0), yet the code skips the step
(`time_delta <= 0` is `continue`d) and returns no flags. -/
theorem movement_zero_elapsed_counterexample :
    step_elapsed_seconds { frame := 0, timestamp := 0, player := { x := 0, y := 0 } }
      { frame := 1, timestamp := 0, player := { x := 100, y := 0 } } = 0 ∧
    step_distance { frame := 0, timestamp := 0, player := { x := 0, y := 0 } }
      { frame := 1, timestamp := 0, player := { x := 100, y := 0 } }
      > (200 : ℝ) * ((step_elapsed_seconds
          { frame := 0, timestamp := 0, player := { x := 0, y := 0 } }
          { frame := 1, timestamp := 0, player := { x := 100, y := 0 } } : ℚ) : ℝ) * 1.10 ∧
    validate_movement zero_dt_frames 200 = [] := by
  have hs : Real.sqrt 10000 = 100 := by
    rw [show (10000 : ℝ) = 100 ^ 2 by norm_num]
    exact Real.sqrt_sq (by norm_num)
  refine ⟨by norm_num [step_elapsed_seconds], ?_, movement_zero_dt⟩
  unfold step_distance step_elapsed_seconds
  norm_num [hs]

/-- C5 amended: flags are raised exactly for the consecutive steps with
positive elapsed time whose distance exceeds `playerSpeed * elapsedSeconds
* 1.10` (steps with non-positive elapsed time are skipped), with severity
critical exactly when the overshoot exceeds 100% and high otherwise, and
fewer than two samples yields no flags; two frames 1000 ms apart at
playerSpeed 200 pass with displacement 215 and raise a high flag with
displacement 250. -/
theorem movement_check_amended :
    (∀ (frame_samples : List FrameSample) (player_speed : ℚ),
      validate_movement frame_samples player_speed
        = spec_movement frame_samples player_speed) ∧
    (∀ (f : FrameSample) (player_speed : ℚ),
      validate_movement [] player_speed = [] ∧ validate_movement [f] player_speed = []) ∧
    validate_movement pass_frames 200 = [] ∧
    (validate_movement high_frames 200).map (fun f => f.severity) = ["high"] := by
  exact ⟨validate_movement_eq_spec, fun f speed => ⟨rfl, rfl⟩, movement_pass_eval,
    movement_high_eval⟩

/-! ## Claims C3 and C10: outcome policy and unconditional token burn -/

lemma filter_empty_iff {α : Type} (p : α → Bool) (l : List α) :
    (l.filter p).isEmpty = true ↔ ∀ x ∈ l, ¬ p x = true := by
  rw [List.isEmpty_iff, List.filter_eq_nil]

lemma filter_not_empty_iff {α : Type} (p : α → Bool) (l : List α) :
    (l.filter p).isEmpty = false ↔ ∃ x ∈ l, p x = true := by
  rw [show ((l.filter p).isEmpty = false) ↔ ¬((l.filter p).isEmpty = true) by simp]
  rw [filter_empty_iff]
  push_neg
  simp

lemma validate_damage_zero_nil (wave : ℕ) (kills : ℤ) :
    validate_damage 0 kills [] wave = [] := by
  unfold validate_damage
  simp only [List.map_nil,
    show calculate_minimum_damage_required wave [] = 0 from rfl]
  norm_num

lemma validate_kills_zero_5 : validate_kills 0 5 = [] := by
  unfold validate_kills
  rw [show get_expected_enemy_count 5 = 40 from rfl]
  norm_num

lemma validate_submission_crit :
    ∃ fl, validate_submission sample_token crit_data = [fl] ∧ fl.severity = "critical" := by
  obtain ⟨fl, hfl, hsev⟩ := movement_crit_eval
  refine ⟨fl, ?_, hsev⟩
  unfold validate_submission
  rw [show crit_data.frame_samples = crit_frames from rfl,
    show sample_token.expected_player_stats.speed = 200 from rfl, hfl,
    show crit_data.enemy_deaths = ([] : List EnemyDeath) from rfl,
    show crit_data.total_damage = 0 from rfl,
    show sample_token.wave_number = 5 from rfl,
    validate_damage_zero_nil,
    show crit_data.kills = 0 from rfl, validate_kills_zero_5]
  rfl

/-- The single high flag produced by submitting one unauthorized upgrade
id. -/
def hack_flag : FlagReason :=
  { category := "upgrades", severity := "high",
    description := "Unauthorized upgrade used: hack",
    expected := FlagValue.strs [], actual := FlagValue.strs ["hack"],
    deviation_percent := none }

lemma validate_submission_high :
    validate_submission sample_token high_data = [hack_flag] := by
  unfold validate_submission
  rw [show high_data.enemy_deaths = ([] : List EnemyDeath) from rfl,
    show high_data.total_damage = 0 from rfl,
    show sample_token.wave_number = 5 from rfl,
    validate_damage_zero_nil,
    show high_data.kills = 0 from rfl, validate_kills_zero_5,
    show high_data.frame_samples = ([] : List FrameSample) from rfl]
  rfl

/-- C3: wave-completion outcome policy.  When the flag list contains a
critical flag, neither the player stats nor the game save are committed and
the submission is recorded with `auto_ban = true`; when the flags are
non-empty but none critical, both commits happen and the flags are
recorded; and the call reports failure exactly when a flag of severity high
or critical exists. -/
theorem wave_outcome_policy (w : World) (now : ℤ) (user_id : ℕ) (username : String)
    (token_string : String) (wave_data : WaveData) (token : TokenDoc)
    (hfind : w.wave_tokens.find? (fun x => x.token == token_string) = some token)
    (hused : token.used = false) (huser : token.user_id = user_id) :
    ((∃ f ∈ validate_submission token wave_data, f.severity = "critical") →
      (complete_wave w now user_id username token_string wave_data).2.player_stats
          = w.player_stats ∧
      (complete_wave w now user_id username token_string wave_data).2.game_saves
          = w.game_saves ∧
      (complete_wave w now user_id username token_string wave_data).2.flagged_waves
          = w.flagged_waves ++ [mk_flagged_wave user_id username token.wave_number
              (validate_submission token wave_data) wave_data token] ∧
      (mk_flagged_wave user_id username token.wave_number
          (validate_submission token wave_data) wave_data token).auto_ban = true) ∧
    ((validate_submission token wave_data ≠ [] ∧
        (∀ f ∈ validate_submission token wave_data, f.severity ≠ "critical")) →
      (complete_wave w now user_id username token_string wave_data).2.player_stats
          = update_player_stats_after_wave w.player_stats user_id wave_data.kills
              wave_data.total_damage token.wave_number ∧
      (complete_wave w now user_id username token_string wave_data).2.game_saves
          = save_game_state w.game_saves user_id wave_data token.wave_number ∧
      (complete_wave w now user_id username token_string wave_data).2.flagged_waves
          = w.flagged_waves ++ [mk_flagged_wave user_id username token.wave_number
              (validate_submission token wave_data) wave_data token]) ∧
    ((complete_wave w now user_id username token_string wave_data).1.1 = false ↔
      ∃ f ∈ validate_submission token wave_data,
        f.severity = "high" ∨ f.severity = "critical") := by
  have hgate := token_gate_ok hfind hused huser
  have hcw := complete_wave_ok now username wave_data hgate
  refine ⟨?_, ?_, ?_⟩
  · rintro ⟨f, hfmem, hfsev⟩
    have hcrit : ((validate_submission token wave_data).filter
        (fun f => f.severity == "critical")).isEmpty = false :=
      (filter_not_empty_iff _ _).mpr ⟨f, hfmem, by simp [hfsev]⟩
    have hflags : (validate_submission token wave_data).isEmpty = false := by
      rw [List.isEmpty_eq_false_iff_exists_mem]
      exact ⟨f, hfmem⟩
    refine ⟨?_, ?_, ?_, ?_⟩
    · simp only [hcw, hcrit, hflags, Bool.false_eq_true, if_false]
    · simp only [hcw, hcrit, hflags, Bool.false_eq_true, if_false]
    · simp only [hcw, hcrit, hflags, Bool.false_eq_true, if_false]
    · simp only [mk_flagged_wave, List.any_eq_true]
      exact ⟨f, hfmem, by simp [hfsev]⟩
  · rintro ⟨hne, hnocrit⟩
    have hcrit : ((validate_submission token wave_data).filter
        (fun f => f.severity == "critical")).isEmpty = true :=
      (filter_empty_iff _ _).mpr (fun x hx => by simp [hnocrit x hx])
    have hflags : (validate_submission token wave_data).isEmpty = false := by
      rw [List.isEmpty_eq_false_iff_exists_mem]
      exact List.exists_mem_of_ne_nil _ hne
    refine ⟨?_, ?_, ?_⟩
    · simp only [hcw, hcrit, hflags, Bool.false_eq_true, if_false, if_true]
    · simp only [hcw, hcrit, hflags, Bool.false_eq_true, if_false, if_true]
    · simp only [hcw, hcrit, hflags, Bool.false_eq_true, if_false, if_true]
  · by_cases hh : ((validate_submission token wave_data).filter
        (fun f => f.severity == "high" || f.severity == "critical")).isEmpty = true
    · refine iff_of_false ?_ ?_
      · simp only [hcw, hh, if_true]
        exact fun h => Bool.noConfusion h
      · rintro ⟨f, hfmem, hfsev⟩
        have := (filter_empty_iff _ _).mp hh f hfmem
        rcases hfsev with h | h <;> simp [h] at this
    · have hh' : ((validate_submission token wave_data).filter
          (fun f => f.severity == "high" || f.severity == "critical")).isEmpty = false := by
        simpa using hh
      refine iff_of_true ?_ ?_
      · simp only [hcw, hh', Bool.false_eq_true, if_false]
      · obtain ⟨f, hfmem, hfsev⟩ := (filter_not_empty_iff _ _).mp hh'
        refine ⟨f, hfmem, ?_⟩
        simpa using hfsev

/-- Witness for C3: in the sample world, the critical-movement submission
withholds both commits and records an auto-ban flag while the
unauthorized-upgrade submission (one high flag) is reported as failed yet
still commits stats and save. -/
theorem wave_outcome_policy_witness :
    (validate_submission sample_token crit_data).map (fun f => f.severity)
      = ["critical"] ∧
    ((complete_wave sample_world 9 7 "alice" "tok" crit_data).2.player_stats
        = sample_world.player_stats ∧
      (complete_wave sample_world 9 7 "alice" "tok" crit_data).2.game_saves
        = sample_world.game_saves ∧
      (complete_wave sample_world 9 7 "alice" "tok" crit_data).2.flagged_waves
        = sample_world.flagged_waves ++ [mk_flagged_wave 7 "alice" sample_token.wave_number
            (validate_submission sample_token crit_data) crit_data sample_token] ∧
      (mk_flagged_wave 7 "alice" sample_token.wave_number
          (validate_submission sample_token crit_data) crit_data sample_token).auto_ban
        = true) ∧
    ((complete_wave sample_world 9 7 "alice" "tok" high_data).2.player_stats
        = update_player_stats_after_wave sample_world.player_stats 7 high_data.kills
            high_data.total_damage sample_token.wave_number ∧
      (complete_wave sample_world 9 7 "alice" "tok" high_data).2.game_saves
        = save_game_state sample_world.game_saves 7 high_data sample_token.wave_number ∧
      (complete_wave sample_world 9 7 "alice" "tok" high_data).2.flagged_waves
        = sample_world.flagged_waves ++ [mk_flagged_wave 7 "alice" sample_token.wave_number
            (validate_submission sample_token high_data) high_data sample_token]) ∧
    (complete_wave sample_world 9 7 "alice" "tok" high_data).1.1 = false := by
  have hcritex : ∃ f ∈ validate_submission sample_token crit_data,
      f.severity = "critical" := by
    obtain ⟨fl, hfl, hsev⟩ := validate_submission_crit
    exact ⟨fl, by rw [hfl]; exact List.mem_singleton_self fl, hsev⟩
  have hcritmap : (validate_submission sample_token crit_data).map (fun f => f.severity)
      = ["critical"] := by
    obtain ⟨fl, hfl, hsev⟩ := validate_submission_crit
    rw [hfl]
    simp [hsev]
  have hhighex : ∃ f ∈ validate_submission sample_token high_data,
      f.severity = "high" ∨ f.severity = "critical" := by
    rw [validate_submission_high]
    exact ⟨hack_flag, List.mem_singleton_self _, Or.inl rfl⟩
  have hnocrit : ∀ f ∈ validate_submission sample_token high_data,
      f.severity ≠ "critical" := by
    rw [validate_submission_high]
    intro f hf
    rw [List.mem_singleton.mp hf]
    decide
  have hne : validate_submission sample_token high_data ≠ [] := by
    rw [validate_submission_high]
    exact List.cons_ne_nil _ _
  exact ⟨hcritmap,
    (wave_outcome_policy sample_world 9 7 "alice" "tok" crit_data sample_token
      rfl rfl rfl).1 hcritex,
    (wave_outcome_policy sample_world 9 7 "alice" "tok" high_data sample_token
      rfl rfl rfl).2.1 ⟨hne, hnocrit⟩,
    ((wave_outcome_policy sample_world 9 7 "alice" "tok" high_data sample_token
      rfl rfl rfl).2.2).mpr hhighex⟩

/-- C10: unconditional token burn.  Whenever `complete_wave` finds an
unused token bound to the caller, the resulting store has that token marked
`used = true` with `used_at` set — for every submission payload, i.e.
regardless of the validation outcome (flags, critical or not). -/
theorem token_burned_regardless_of_outcome (w : World) (now : ℤ) (user_id : ℕ)
    (username : String) (token_string : String) (wave_data : WaveData) (token : TokenDoc)
    (hfind : w.wave_tokens.find? (fun x => x.token == token_string) = some token)
    (hused : token.used = false) (huser : token.user_id = user_id)
    (hnodup : (w.wave_tokens.map (fun x => x.oid)).Nodup) :
    (complete_wave w now user_id username token_string wave_data).2.wave_tokens
      = mark_token_used w.wave_tokens token.oid now ∧
    (complete_wave w now user_id username token_string wave_data).2.wave_tokens.find?
        (fun x => x.token == token_string)
      = some { token with used := true, used_at := some now } := by
  have hgate := token_gate_ok hfind hused huser
  have h1 := complete_wave_tokens now username wave_data hgate
  refine ⟨h1, ?_⟩
  rw [h1]
  exact find?_mark_token_used now w.wave_tokens token_string token hfind hnodup

/-- Witness for C10: the critical-flagged submission (whose wave is
reported failed and whose commits are withheld) still burns the sample
token. -/
theorem token_burned_regardless_witness :
    (validate_submission sample_token crit_data).map (fun f => f.severity)
      = ["critical"] ∧
    (complete_wave sample_world 9 7 "alice" "tok" crit_data).2.wave_tokens.find?
        (fun x => x.token == "tok")
      = some { sample_token with used := true, used_at := some 9 } := by
  have hcritmap : (validate_submission sample_token crit_data).map (fun f => f.severity)
      = ["critical"] := by
    obtain ⟨fl, hfl, hsev⟩ := validate_submission_crit
    rw [hfl]
    simp [hsev]
  exact ⟨hcritmap,
    (token_burned_regardless_of_outcome sample_world 9 7 "alice" "tok" crit_data
      sample_token rfl rfl rfl (by decide)).2⟩

/-! ## Claim C8: upgrade roller -/

lemma getD_mem {α : Type} (l : List α) (i : ℕ) (d : α) (hd : d ∈ l) : l.getD i d ∈ l := by
  rw [List.getD_eq_getElem?_getD]
  cases h : l[i]? with
  | none => simpa using hd
  | some a =>
    have ha : a ∈ l := List.getElem?_mem h
    simpa using ha

lemma roll_loop_mem (available : List Upgrade) (count : ℕ) (draws : ℕ → ℚ × ℕ) :
    ∀ (fuel attempts : ℕ) (selected : List Upgrade),
      ∀ u ∈ roll_loop available count draws fuel attempts selected,
        u ∈ selected ∨ u ∈ available := by
  intro fuel
  induction fuel with
  | zero => intro attempts selected u hu; exact Or.inl hu
  | succ n ih =>
    intro attempts selected u hu
    simp only [roll_loop] at hu
    by_cases hlen : selected.length < count
    · rw [if_pos hlen] at hu
      cases hpool : available.filter
          (fun v => v.rarity == pick_rarity (draws attempts).1) with
      | nil =>
        rw [hpool] at hu
        exact ih (attempts + 1) selected u hu
      | cons v vs =>
        rw [hpool] at hu
        dsimp only [] at hu
        set chosen := (v :: vs).getD ((draws attempts).2 % (v :: vs).length) v with hchosen
        have hchosen_mem : chosen ∈ available := by
          have : chosen ∈ v :: vs := getD_mem (v :: vs) _ v (List.mem_cons_self v vs)
          rw [← hpool] at this
          exact List.mem_of_mem_filter this
        by_cases hadd : (!selected.contains chosen || chosen.stackable) = true
        · rw [if_pos hadd] at hu
          rcases ih (attempts + 1) _ u hu with h | h
          · rcases List.mem_append.mp h with h | h
            · exact Or.inl h
            · rw [List.mem_singleton.mp h]
              exact Or.inr hchosen_mem
          · exact Or.inr h
        · rw [if_neg hadd] at hu
          rcases ih (attempts + 1) _ u hu with h | h
          · exact Or.inl h
          · exact Or.inr h
    · rw [if_neg hlen] at hu
      exact Or.inl hu

lemma roll_loop_count (available : List Upgrade) (count : ℕ) (draws : ℕ → ℚ × ℕ)
    (u : Upgrade) (hstack : u.stackable = false) :
    ∀ (fuel attempts : ℕ) (selected : List Upgrade),
      selected.count u ≤ 1 →
      (roll_loop available count draws fuel attempts selected).count u ≤ 1 := by
  intro fuel
  induction fuel with
  | zero => intro attempts selected hsel; exact hsel
  | succ n ih =>
    intro attempts selected hsel
    simp only [roll_loop]
    by_cases hlen : selected.length < count
    · rw [if_pos hlen]
      cases hpool : available.filter
          (fun v => v.rarity == pick_rarity (draws attempts).1) with
      | nil =>
        dsimp only []
        exact ih (attempts + 1) selected hsel
      | cons v vs =>
        dsimp only []
        set chosen := (v :: vs).getD ((draws attempts).2 % (v :: vs).length) v with hchosen
        by_cases hadd : (!selected.contains chosen || chosen.stackable) = true
        · rw [if_pos hadd]
          refine ih (attempts + 1) _ ?_
          by_cases heq : u = chosen
          · have hstack' : chosen.stackable = false := by rw [← heq]; exact hstack
            have hcontains : selected.contains chosen = false := by
              rcases Bool.or_eq_true_iff.mp hadd with h | h
              · cases hc : selected.contains chosen
                · rfl
                · rw [hc] at h; cases h
              · rw [hstack'] at h; cases h
            have hnotmem : chosen ∉ selected := by simpa using hcontains
            rw [heq, List.count_append, List.count_eq_zero.mpr hnotmem]
            simp
          · rw [List.count_append]
            have h0 : List.count u [chosen] = 0 :=
              List.count_eq_zero.mpr (by simp [heq])
            omega
        · rw [if_neg hadd]
          exact ih (attempts + 1) selected hsel
    · rw [if_neg hlen]
      exact hsel

lemma decide_lt_eq_not_decide_le (a b : ℕ) : decide (a < b) = !decide (b ≤ a) := by
  by_cases h : a < b
  · simp [h, Nat.not_le.mpr h]
  · simp [h, Nat.not_lt.mp h]

lemma all_not_eq_not_any {α : Type} (p : α → Bool) :
    ∀ l : List α, l.all (fun x => !p x) = !l.any p := by
  intro l
  induction l with
  | nil => rfl
  | cons x xs ih => simp [List.all_cons, List.any_cons, ih]

lemma if_chain_eq (c1 c2 c3 c4 c5 : Bool) :
    (if c1 = true then false else if c2 = true then false else if c3 = true then false
      else if c4 = true then false else if c5 = true then false else true)
      = (!c1 && !c2 && !c3 && !c4 && !c5) := by
  cases c1 <;> cases c2 <;> cases c3 <;> cases c4 <;> cases c5 <;> rfl

/-- The code's eligibility predicate coincides with the claim's wording. -/
lemma can_apply_eq_spec (upgrade_id : String) (owned : List String)
    (attack_type : String) :
    can_apply_upgrade upgrade_id owned attack_type
      = spec_eligible upgrade_id owned attack_type := by
  unfold can_apply_upgrade spec_eligible
  cases hu : get_upgrade upgrade_id with
  | none => rfl
  | some u =>
    dsimp only []
    rw [if_chain_eq]
    have hs1 : (u.attackType == none || u.attackType == some attack_type)
        = !(u.attackType.isSome && u.attackType != some attack_type) := by
      cases hat : u.attackType with
      | none => simp
      | some a => by_cases h : a = attack_type <;> simp [h, bne]
    have hs2 : (u.stackable || !owned.contains upgrade_id)
        = !(!u.stackable && owned.contains upgrade_id) := by
      cases u.stackable <;> simp
    have hs3 : (!u.stackable || (match u.maxStacks with
          | some m => decide (owned.count upgrade_id < m)
          | none => true))
        = !(u.stackable && (match u.maxStacks with
          | some m => decide (m ≤ owned.count upgrade_id)
          | none => false)) := by
      cases u.stackable <;> cases u.maxStacks <;>
        simp [decide_lt_eq_not_decide_le]
    have hs4 : (u.dependentOn.isEmpty
          || decide (u.dependencyCount.getD 1
              ≤ (u.dependentOn.filter (fun d => owned.contains d)).length))
        = !(!u.dependentOn.isEmpty
          && decide ((u.dependentOn.filter (fun d => owned.contains d)).length
              < u.dependencyCount.getD 1)) := by
      cases hdep : u.dependentOn with
      | nil => simp
      | cons d ds =>
        simp only [List.isEmpty_cons, Bool.false_or, Bool.not_false, Bool.true_and]
        rw [decide_lt_eq_not_decide_le, Bool.not_not]
    have hs5 : u.replaces.all (fun r => !owned.contains r)
        = !(u.replaces.any (fun r => owned.contains r)) :=
      all_not_eq_not_any _ u.replaces
    rw [hs1, hs2, hs3, hs4, hs5]

/-- C8: upgrade roller correctness.  For every owned-upgrade list, attack
type, draw stream and count: the result has length at most `count`; every
returned upgrade is eligible per `can_apply_upgrade` against the owned set;
a non-stackable upgrade appears at most once; an empty eligible pool yields
`[]`; and the code's eligibility predicate equals the claim's enumeration
(attack-type match or absent, not-owned unless stackable, stacks under max,
dependencies met, no replaced upgrade owned). -/
theorem upgrade_roller_sound (current_upgrades : List String) (attack_type : String)
    (draws : ℕ → ℚ × ℕ) (count : ℕ) :
    (roll_upgrades current_upgrades attack_type draws count).length ≤ count ∧
    (∀ u ∈ roll_upgrades current_upgrades attack_type draws count,
      can_apply_upgrade u.id current_upgrades attack_type = true) ∧
    (∀ u ∈ roll_upgrades current_upgrades attack_type draws count,
      u.stackable = false →
      (roll_upgrades current_upgrades attack_type draws count).count u ≤ 1) ∧
    (UPGRADES.filter (fun u => can_apply_upgrade u.id current_upgrades attack_type)
        = [] →
      roll_upgrades current_upgrades attack_type draws count = []) ∧
    (∀ (upgrade_id : String) (owned : List String) (attack_type2 : String),
      can_apply_upgrade upgrade_id owned attack_type2
        = spec_eligible upgrade_id owned attack_type2) := by
  refine ⟨?_, ?_, ?_, ?_, fun uid owned at2 => can_apply_eq_spec uid owned at2⟩
  · unfold roll_upgrades
    by_cases hav : (UPGRADES.filter
        (fun u => can_apply_upgrade u.id current_upgrades attack_type)).isEmpty = true
    · rw [if_pos hav]; simp
    · rw [if_neg (by simp_all)]
      rw [List.length_take]
      exact min_le_left _ _
  · intro u hu
    unfold roll_upgrades at hu
    by_cases hav : (UPGRADES.filter
        (fun u => can_apply_upgrade u.id current_upgrades attack_type)).isEmpty = true
    · rw [if_pos hav] at hu; cases hu
    · rw [if_neg (by simp_all)] at hu
      have hu' := List.take_subset _ _ hu
      rcases roll_loop_mem _ count draws 100 0 [] u hu' with h | h
      · cases h
      · exact @List.of_mem_filter _
          (fun u => can_apply_upgrade u.id current_upgrades attack_type) u UPGRADES h
  · intro u hu hstack
    unfold roll_upgrades at hu ⊢
    by_cases hav : (UPGRADES.filter
        (fun u => can_apply_upgrade u.id current_upgrades attack_type)).isEmpty = true
    · rw [if_pos hav] at hu; cases hu
    · rw [if_neg (by simp_all)] at hu ⊢
      calc ((roll_loop (UPGRADES.filter
            (fun u => can_apply_upgrade u.id current_upgrades attack_type))
            count draws 100 0 []).take count).count u
          ≤ (roll_loop (UPGRADES.filter
            (fun u => can_apply_upgrade u.id current_upgrades attack_type))
            count draws 100 0 []).count u := (List.take_sublist _ _).count_le u
        _ ≤ 1 := roll_loop_count _ count draws u hstack 100 0 [] (by simp)
  · intro hnil
    unfold roll_upgrades
    rw [if_pos (by rw [hnil]; rfl)]

/-- Witness for C8 at a concrete instantiation: empty owned set, bullet
attack type, the constant draw stream, count 3; plus the eligibility
equivalence at a concrete upgrade id. -/
theorem upgrade_roller_sound_witness :
    (roll_upgrades [] "bullet" (fun n => (0, n)) 3).length ≤ 3 ∧
    can_apply_upgrade "ricochet" [] "bullet" = spec_eligible "ricochet" [] "bullet" :=
  ⟨(upgrade_roller_sound [] "bullet" (fun n => (0, n)) 3).1,
   (upgrade_roller_sound [] "bullet" (fun n => (0, n)) 3).2.2.2.2 "ricochet" [] "bullet"⟩

end Polygon
